import Mathlib

/-!
Verification development for the guc glTF→USD converter.

This file embeds the algorithmic cores of the converter in Lean 4:

* the topology normalizer `createGeometryRepresentation` and the attribute
  synthesizers `createFlatNormals` (src/libguc/src/mesh.cpp),
* the normal/tangent generation decision of `Converter::createMeshPrimitive`,
  the texture-coordinate Y flip, the dedup path cache
  (`Converter::overridePrimInPathMap` and the createOrOver* family) and the
  default material-variant assignment (src/libguc/src/converter.cpp),
* the MaterialX node-graph construction of `MaterialXMaterialConverter`
  (src/libguc/src/materialx.cpp).

Modelling conventions:

* C++ machine floats are modelled as exact rationals (`ℚ`); IEEE rounding is
  abstracted away.  Square roots (`GfVec3f::Normalize`) are modelled by a
  rational square root that is exact on perfect squares — every concrete input
  evaluated below has perfect-square lengths, so the model agrees with the
  float code there.
* `VtArray` and `std::vector` are `List`s; `resize` value-initializes.
* Pointer identities (cgltf entity pointers) are natural-number ids; USD stage
  paths are natural-number ids handed in by the caller (mirroring
  `makeUniqueStageSubpath`, which always returns a fresh unused path).
* Tf diagnostics are modelled by their kind (`TF_WARN`, `TF_RUNTIME_ERROR`,
  `TF_CODING_ERROR`); posting one never unwinds.
-/

namespace Guc

/-! ## Topology normalizer (mesh.cpp, `createGeometryRepresentation`) -/

/-- cgltf_primitive_type, restricted to the values handled by the switch in
`createGeometryRepresentation` (the default case is a coding error). -/
inductive PrimitiveType where
  | points
  | lines
  | lineStrip
  | lineLoop
  | triangles
  | triangleStrip
  | triangleFan
  deriving DecidableEq

/-- Output index list of the line-strip case: `n-1` consecutive pairs
`(in[i], in[i+1])`. -/
def lineStripOutIndices (inIndices : List Int) : List Int :=
  (List.range (inIndices.length - 1)).flatMap fun i =>
    [inIndices.getD i 0, inIndices.getD (i + 1) 0]

/-- Output index list of the line-loop case, written exactly as the C++ does:
`outIndices.resize(n*2)` value-initializes to `0`; the loop fills positions
`i*2` and `i*2+1` for `i < n-1`; afterwards (with `i = n-1`) the code writes
the wrap-around segment to positions `i + 0` and `i + 1` (NOT `i*2 + 0` and
`i*2 + 1`). -/
def lineLoopOutIndices (inIndices : List Int) : List Int :=
  let n := inIndices.length
  let base := List.replicate (n * 2) (0 : Int)
  let afterLoop := (List.range (n - 1)).foldl
    (fun acc i =>
      (acc.set (i * 2 + 0) (inIndices.getD (i + 0) 0)).set
        (i * 2 + 1) (inIndices.getD (i + 1) 0))
    base
  let i := n - 1
  (afterLoop.set (i + 0) (inIndices.getD (n - 1) 0)).set
    (i + 1) (inIndices.getD 0 0)

/-- Output index list of the triangle-strip case: triangle `i` is
`(in[i], in[i+1], in[i+2])` for even `i` and `(in[i], in[i+2], in[i+1])` for
odd `i` (the `forward` flag toggles every iteration). -/
def triangleStripOutIndices (inIndices : List Int) : List Int :=
  (List.range (inIndices.length - 2)).flatMap fun i =>
    if i % 2 = 0 then
      [inIndices.getD i 0, inIndices.getD (i + 1) 0, inIndices.getD (i + 2) 0]
    else
      [inIndices.getD i 0, inIndices.getD (i + 2) 0, inIndices.getD (i + 1) 0]

/-- Output index list of the triangle-fan case: triangle `i` is
`(in[0], in[i+1], in[i+2])`. -/
def triangleFanOutIndices (inIndices : List Int) : List Int :=
  (List.range (inIndices.length - 2)).flatMap fun i =>
    [inIndices.getD 0 0, inIndices.getD (i + 1) 0, inIndices.getD (i + 2) 0]

/-- guc's `createGeometryRepresentation` (mesh.cpp).  Returns
`some (outIndices, faceVertexCounts)` on success and `none` when the function
reports `TF_RUNTIME_ERROR("indices count does not match primitive type")` and
returns `false`. -/
def createGeometryRepresentation (primType : PrimitiveType)
    (inIndices : List Int) : Option (List Int × List Int) :=
  match primType with
  | .points =>
      some (inIndices, List.replicate inIndices.length 1)
  | .lines =>
      if inIndices.length % 2 ≠ 0 then none
      else some (inIndices, List.replicate (inIndices.length / 2) 2)
  | .triangles =>
      if inIndices.length % 3 ≠ 0 then none
      else some (inIndices, List.replicate (inIndices.length / 3) 3)
  | .lineStrip =>
      if inIndices.length < 2 then none
      else some (lineStripOutIndices inIndices,
                 List.replicate (inIndices.length - 1) 2)
  | .lineLoop =>
      if inIndices.length < 2 then none
      else some (lineLoopOutIndices inIndices,
                 List.replicate inIndices.length 2)
  | .triangleStrip =>
      if inIndices.length < 3 then none
      else some (triangleStripOutIndices inIndices,
                 List.replicate (inIndices.length - 2) 3)
  | .triangleFan =>
      if inIndices.length < 3 then none
      else some (triangleFanOutIndices inIndices,
                 List.replicate (inIndices.length - 2) 3)

/-! ## Surface attribute synthesizer (mesh.cpp, `createFlatNormals`) -/

/-- GfVec3f, with exact rational components. -/
structure Vec3 where
  x : ℚ
  y : ℚ
  z : ℚ
  deriving DecidableEq

/-- Component-wise subtraction (`GfVec3f operator-`). -/
def Vec3.sub (a b : Vec3) : Vec3 := ⟨a.x - b.x, a.y - b.y, a.z - b.z⟩

/-- Dot product. -/
def Vec3.dot (a b : Vec3) : ℚ := a.x * b.x + a.y * b.y + a.z * b.z

/-- GfCross. -/
def Vec3.cross (a b : Vec3) : Vec3 :=
  ⟨a.y * b.z - a.z * b.y, a.z * b.x - a.x * b.z, a.x * b.y - a.y * b.x⟩

/-- Scalar multiple. -/
def Vec3.smul (q : ℚ) (a : Vec3) : Vec3 := ⟨q * a.x, q * a.y, q * a.z⟩

/-- Floor square root on naturals, by linear scan (equal to `Nat.sqrt`, but
reducible by the kernel on the small concrete inputs below). -/
def natSqrtLinear (n : Nat) : Nat :=
  (((List.range (n + 1)).filter (fun k => k * k ≤ n)).getLast?).getD 0

/-- Rational square root used to model the real square root inside
`GfVec3f::Normalize`.  It is exact whenever numerator and denominator are
perfect squares; every vector length taken in the theorems below is of that
form, so no rounding behaviour is hidden here. -/
def ratSqrt (q : ℚ) : ℚ := (natSqrtLinear q.num.toNat : ℚ) / (natSqrtLinear q.den : ℚ)

/-- GF_MIN_VECTOR_LENGTH, the default `eps` of `GfVec3f::Normalize`. -/
def gfMinVectorLength : ℚ := 1 / 10000000000

/-- GfVec3f::Normalize: divide by the length, guarded against degenerate
vectors by `eps` (`length` is replaced by `eps` when smaller). -/
def Vec3.normalize (v : Vec3) : Vec3 :=
  let length := ratSqrt (v.dot v)
  let d := if length < gfMinVectorLength then gfMinVectorLength else length
  Vec3.smul (1 / d) v

/-- One iteration of the loop body of `createFlatNormals`: read the three
corner indices of triangle `t` (positions `3t, 3t+1, 3t+2` of `indices`),
build the flat normal from the pre-normalized edges `e1 = p1 - p0` and
`e2 = p2 - p0`, and store it into the normals array at the three *vertex*
indices `i0`, `i1`, `i2`. -/
def flatNormalsStep (indices : List Nat) (positions : List Vec3)
    (normals : List Vec3) (t : Nat) : List Vec3 :=
  let i0 := indices.getD (3 * t + 0) 0
  let i1 := indices.getD (3 * t + 1) 0
  let i2 := indices.getD (3 * t + 2) 0
  let p0 := positions.getD i0 ⟨0, 0, 0⟩
  let p1 := positions.getD i1 ⟨0, 0, 0⟩
  let p2 := positions.getD i2 ⟨0, 0, 0⟩
  let e1 := (Vec3.sub p1 p0).normalize
  let e2 := (Vec3.sub p2 p0).normalize
  let n := (Vec3.cross e1 e2).normalize
  ((normals.set i0 n).set i1 n).set i2 n

/-- guc's `createFlatNormals` (mesh.cpp).  The C++ does
`normals.resize(positions.size())` and then, for every triangle of `indices`,
writes the triangle's flat normal through the three vertex indices
(`normals[i0] = n; normals[i1] = n; normals[i2] = n;`).  `resize` is modelled
as zero-filling; positions not referenced by any triangle keep that value. -/
def createFlatNormals (indices : List Nat) (positions : List Vec3) :
    List Vec3 :=
  let base := List.replicate positions.length (⟨0, 0, 0⟩ : Vec3)
  (List.range (indices.length / 3)).foldl (flatNormalsStep indices positions) base

/-! ## Normal/tangent generation decision
(converter.cpp, `Converter::createMeshPrimitive`, lines 1226–1292) -/

/-- Inputs of the normal/tangent generation decision for one mesh primitive.
`normalsReadable` models `cgltf_find_accessor(primitiveData, "NORMAL")`
succeeding together with `readVtArrayFromAccessor`; likewise
`tangentsReadable` for the TANGent accessor.  `normalTextureValid` is
`Converter::isValidTexture(material->normal_texture)` (texture, image and
image metadata all present); `normalTexcoord` is
`material->normal_texture.texcoord` and `texCoordSetCount` the number of
TEXCOORD_i sets read for the primitive.  `emitMtlx` is `m_params.emitMtlx`. -/
structure NormalTangentInputs where
  primType : PrimitiveType
  normalsReadable : Bool
  tangentsReadable : Bool
  normalTextureValid : Bool
  normalTexcoord : Nat
  texCoordSetCount : Nat
  emitMtlx : Bool
  deriving DecidableEq

/-- hasTriangleTopology (converter.cpp line 1226). -/
def hasTriangleTopology (t : PrimitiveType) : Bool :=
  t = .triangles || t = .triangleStrip || t = .triangleFan

/-- Flags produced by the normals/tangents block of `createMeshPrimitive`:
`(generatedNormals, generatedTangents)`.  Flat normals are generated exactly
when no readable NORMAL accessor exists and the topology is triangle-based.
Authored tangents are only read when normals were not generated; otherwise
tangents are generated iff the topology is triangle-based, MaterialX output is
enabled, the material's normal texture is valid and its UV set index is within
the primitive's texcoord sets (else `TF_RUNTIME_ERROR("invalid UV index for
normalmap...")` and no tangents). -/
def normalTangentGeneration (inp : NormalTangentInputs) : Bool × Bool :=
  let generatedNormals := !inp.normalsReadable && hasTriangleTopology inp.primType
  let generatedTangents :=
    if !generatedNormals && inp.tangentsReadable then
      false
    else if hasTriangleTopology inp.primType && inp.emitMtlx then
      if inp.normalTextureValid then
        decide (inp.normalTexcoord < inp.texCoordSetCount)
      else
        false
    else
      false
  (generatedNormals, generatedTangents)

/-! ## Texture-coordinate Y flip
(converter.cpp, `Converter::createMeshPrimitive`, lines 1216–1220) -/

/-- Loop body of the TEXCOORD flip: `texCoord[1] = 1.0f - texCoord[1]`.
The first (U) component is untouched. -/
def flipTexCoordY (tc : ℚ × ℚ) : ℚ × ℚ := (tc.1, 1 - tc.2)

/-- The whole `for (GfVec2f& texCoord : texCoords)` loop applied to one
texture-coordinate set. -/
def flipTexCoordSet (texCoords : List (ℚ × ℚ)) : List (ℚ × ℚ) :=
  texCoords.map flipTexCoordY

/-! ## Dedup path cache
(converter.cpp, `Converter::overridePrimInPathMap` and the
`createOrOverMesh`/`createOrOverCamera`/`createOrOverLight` family)

Source entities (cgltf mesh primitive / camera / light pointers) are modelled
by natural-number ids, stage paths likewise.  Each visit of an entity comes
with the fresh path that `makeUniqueStageSubpath` computed for it.  Whether an
entity can be fully lowered (`createPrimitive` succeeding, the camera/light
type being valid) is a deterministic property of the source entity, modelled
by a predicate `lowerable`. -/

/-- Observable outcome of one `createOrOver*` call. -/
inductive LowerEvent where
  /-- The entity was not in `m_uniquePaths`: full lowering was performed at
  the fresh path and the path was recorded. -/
  | fullLower (entity : Nat) (path : Nat)
  /-- `overridePrimInPathMap` found the entity: only an over-prim with a
  reference to the previously recorded path was emitted. -/
  | reference (entity : Nat) (target : Nat)
  /-- The entity was invalid (`TF_RUNTIME_ERROR(... skipping)`)); nothing was
  emitted or recorded. -/
  | skipped (entity : Nat)
  deriving DecidableEq

/-- m_uniquePaths, the `std::map<void*, SdfPath>` of the converter,
as an association list. -/
abbrev PathMap := List (Nat × Nat)

/-- Converter::overridePrimInPathMap: look the entity up in `m_uniquePaths`;
on a hit the caller emits only a reference prim to the stored path. -/
def overridePrimInPathMap (m : PathMap) (entity : Nat) : Option Nat :=
  match m with
  | [] => none
  | (e, p) :: rest =>
      if entity = e then some p else overridePrimInPathMap rest entity

/-- One `createOrOverCamera`/`createOrOverLight` call, or one submesh
iteration of `createOrOverMesh`: consult the path cache first; otherwise
perform the full lowering (when the entity is valid) and record the fresh
path in `m_uniquePaths`. -/
def createOrOverEntity (lowerable : Nat → Bool) (m : PathMap)
    (entity freshPath : Nat) : PathMap × LowerEvent :=
  match overridePrimInPathMap m entity with
  | some target => (m, .reference entity target)
  | none =>
      if lowerable entity then
        ((entity, freshPath) :: m, .fullLower entity freshPath)
      else
        (m, .skipped entity)

/-- A whole scene walk: the sequence of entity visits that
`createNodesRecursively` performs, each with its fresh subpath, threaded
through the path cache.  Returns the final cache and the event trace. -/
def runVisits (lowerable : Nat → Bool) (m : PathMap) :
    List (Nat × Nat) → PathMap × List LowerEvent
  | [] => (m, [])
  | (e, p) :: rest =>
      let r := createOrOverEntity lowerable m e p
      let rrest := runVisits lowerable r.1 rest
      (rrest.1, r.2 :: rrest.2)

/-- Predicate for counting full lowerings of one entity in a trace. -/
def isFullLowerOf (entity : Nat) (ev : LowerEvent) : Bool :=
  match ev with
  | .fullLower e _ => e = entity
  | _ => false

/-! ## Default material-variant assignment
(converter.cpp, `Converter::convert`, lines 320–338) -/

/-- Kinds of Tf diagnostics posted by the converter. -/
inductive DiagKind where
  | warning
  | runtimeError
  | codingError
  deriving DecidableEq

/-- Result of the "Assign default material variant" block. -/
structure VariantAssignment where
  chosenIndex : Nat
  diagnostic : Option DiagKind
  deriving DecidableEq

/-- The "Assign default material variant" block of `Converter::convert`: it
only runs when variants are declared (`variants_count > 0`).  An out-of-range
`m_params.defaultMaterialVariant` posts `TF_RUNTIME_ERROR("default material
variant index %d out of range [0, %d); using 0", ...)` and falls back to
index 0; conversion always continues (`some` result). -/
def assignDefaultMaterialVariant (defaultMaterialVariant : Int)
    (variantsCount : Nat) : Option VariantAssignment :=
  if variantsCount = 0 then
    none
  else if defaultMaterialVariant < 0 ∨ (variantsCount : Int) ≤ defaultMaterialVariant then
    some ⟨0, some .runtimeError⟩
  else
    some ⟨defaultMaterialVariant.toNat, none⟩

/-! ## MaterialX node-graph lowering (materialx.cpp)

The MaterialX document pieces that `MaterialXMaterialConverter` builds are
modelled structurally: typed values, inputs (with an optional literal value,
optional node-name / output-string / nodegraph-string connection fields and an
optional colorspace attribute), nodes and node-graph-level outputs.  The two
debug-build environment settings (`GUC_ENABLE_MTLX_GLTF_PBR_TANGENT`,
`GUC_ENABLE_MTLX_VIEWER_COMPAT`) default to `false` and are modelled as such;
their `#ifndef NDEBUG` branches are omitted. -/

/-- MaterialX typed values (mx::Value) as used by the converter. -/
inductive MxValue where
  | f (x : ℚ)
  | v2 (x y : ℚ)
  | c3 (r g b : ℚ)
  | v3 (x y z : ℚ)
  | c4 (r g b a : ℚ)
  | v4 (x y z w : ℚ)
  | int (n : Int)
  | str (s : String)
  | fname (s : String)
  deriving DecidableEq

/-- mx::Value::getTypeString. -/
def MxValue.typeString : MxValue → String
  | .f _ => "float"
  | .v2 _ _ => "vector2"
  | .c3 _ _ _ => "color3"
  | .v3 _ _ _ => "vector3"
  | .c4 _ _ _ _ => "color4"
  | .v4 _ _ _ _ => "vector4"
  | .int _ => "integer"
  | .str _ => "string"
  | .fname _ => "filename"

/-- A MaterialX input element: at most one literal value and the connection
attributes (`nodename`, `output`, `nodegraph`) plus an optional colorspace
attribute. -/
structure MtlxInput where
  name : String
  type : String
  value : Option MxValue := none
  nodeName : Option String := none
  outputString : Option String := none
  nodegraphString : Option String := none
  colorspace : Option String := none
  deriving DecidableEq

/-- A MaterialX node: generated name, category (e.g. "multiply", "image",
"geompropvalue"), value type and input list. -/
structure MtlxNode where
  name : String
  category : String
  type : String
  inputs : List MtlxInput := []
  colorspace : Option String := none
  deriving DecidableEq

/-- A node-graph boundary output (`nodeGraph->addOutput`). -/
structure MtlxOutput where
  name : String
  type : String
  nodeName : String
  deriving DecidableEq

/-- A MaterialX node graph. -/
structure MtlxNodeGraph where
  name : String
  nodes : List MtlxNode := []
  outputs : List MtlxOutput := []
  deriving DecidableEq

/-- mx::GraphElement::addNode with an empty name argument: MaterialX generates
a fresh child name from the category.  The generated suffix here is the node
count, which keeps names unique within the graph (MaterialX numbers per
category; only uniqueness is relevant). -/
def MtlxNodeGraph.addNode (g : MtlxNodeGraph) (category type : String)
    (inputs : List MtlxInput) : MtlxNodeGraph × String :=
  let nm := category ++ toString (g.nodes.length + 1)
  ({ g with
      nodes := g.nodes ++ [{ name := nm, category := category, type := type,
                             inputs := inputs }] },
   nm)

/-- Append one input to an existing node (`NodePtr->addInput` after node
creation). -/
def MtlxNodeGraph.addNodeInput (g : MtlxNodeGraph) (nodeName : String)
    (inp : MtlxInput) : MtlxNodeGraph :=
  { g with
    nodes := g.nodes.map fun n =>
      if n.name = nodeName then { n with inputs := n.inputs ++ [inp] } else n }

/-- Set the colorspace attribute of a node
(`node->setAttribute("colorspace", ...)`). -/
def MtlxNodeGraph.setNodeColorspace (g : MtlxNodeGraph) (nodeName cs : String) :
    MtlxNodeGraph :=
  { g with
    nodes := g.nodes.map fun n =>
      if n.name = nodeName then { n with colorspace := some cs } else n }

/-- mx::NodePtr::getType, looked up by node name. -/
def MtlxNodeGraph.nodeType (g : MtlxNodeGraph) (nodeName : String) : String :=
  (((g.nodes.find? fun n => n.name = nodeName).map fun n => n.type).getD "")

/-- nodeGraph->addOutput followed by output->setNodeName. -/
def MtlxNodeGraph.addOutput (g : MtlxNodeGraph) (outName type nodeName : String) :
    MtlxNodeGraph :=
  { g with outputs := g.outputs ++ [⟨outName, type, nodeName⟩] }

/-- shaderNode->addInput: appends a fresh input of the given type. -/
def addInput (inputs : List MtlxInput) (nm type : String) : List MtlxInput :=
  inputs ++ [{ name := nm, type := type }]

/-- input->setValue / setValueString on the named input. -/
def setInputValue (inputs : List MtlxInput) (nm : String) (v : MxValue) :
    List MtlxInput :=
  inputs.map fun i => if i.name = nm then { i with value := some v } else i

/-- shaderNode->removeInput. -/
def removeInput (inputs : List MtlxInput) (nm : String) : List MtlxInput :=
  inputs.filter fun i => i.name ≠ nm

/-- input->hasValue / getValue on the named input. -/
def getInputValue (inputs : List MtlxInput) (nm : String) : Option MxValue :=
  (inputs.find? fun i => i.name = nm).bind fun i => i.value

/-- shaderNode->getInput(name) != nullptr. -/
def hasInput (inputs : List MtlxInput) (nm : String) : Bool :=
  inputs.any fun i => i.name = nm

/-- Configuration of `MaterialXMaterialConverter` plus two real-valued library
functions that have no exact rational representation (the sRGB transfer
curve's `pow(x, 1/2.4)` branch and the radians→degrees factor `180/π`).
They are supplied as parameters so the embedding stays executable; no claim
settled in this file depends on their values. -/
structure MtlxConfig where
  flattenNodes : Bool
  explicitColorSpaceTransformsParam : Bool
  hdstormCompat : Bool
  /-- detail::convertLinearFloatToSrgb (clamped piecewise transfer curve). -/
  linearToSrgbFloat : ℚ → ℚ
  /-- GfRadiansToDegrees. -/
  radiansToDegrees : ℚ → ℚ

/-- m_explicitColorSpaceTransforms, set in the constructor as
`explicit_colorspace_transforms || hdstorm_compat`. -/
def MtlxConfig.explicitColorSpaceTransforms (cfg : MtlxConfig) : Bool :=
  cfg.explicitColorSpaceTransformsParam || cfg.hdstormCompat

/-- MTLX_COLORSPACE_SRGB. -/
def MTLX_COLORSPACE_SRGB : String := "srgb_texture"

/-- MTLX_COLORSPACE_LINEAR. -/
def MTLX_COLORSPACE_LINEAR : String := "lin_rec709"

/-- makeColorSetName(0), the m_defaultColorSetName of the converter. -/
def defaultColorSetName : String := "color0"

/-- makeOpacitySetName(0), the m_defaultOpacitySetName of the converter. -/
def defaultOpacitySetName : String := "opacity0"

/-- makeStSetName (naming.cpp): primary UV set name "st" plus the index. -/
def makeStSetName (index : Nat) : String := "st" ++ toString index

/-- ImageMetadata (image.h): resolved reference path, channel count and
whether USD's own sRGB auto-detection classifies the image as sRGB. -/
structure ImageMetadata where
  refPath : String
  channelCount : Nat
  isSrgbInUSD : Bool
  deriving DecidableEq

/-- cgltf_sampler (0 meaning "undefined" for the filters and wrap modes as in
the C struct). -/
structure GSampler where
  wrapS : Int := 10497
  wrapT : Int := 10497
  minFilter : Int := 0
  magFilter : Int := 0
  deriving DecidableEq

/-- cgltf_texture_transform. -/
structure TextureTransform where
  offsetX : ℚ := 0
  offsetY : ℚ := 0
  rotation : ℚ := 0
  scaleX : ℚ := 1
  scaleY : ℚ := 1
  hasTexcoord : Bool := false
  texcoord : Nat := 0
  deriving DecidableEq

/-- cgltf_texture_view.  `metadata = some _` models the success of
`getTextureMetadata` (texture pointer, image pointer and metadata-map entry
all present); `none` models any of the three lookups failing. -/
structure TextureView where
  metadata : Option ImageMetadata := none
  texcoord : Nat := 0
  scale : ℚ := 1
  hasTransform : Bool := false
  transform : TextureTransform := {}
  sampler : Option GSampler := none
  deriving DecidableEq

/-- MaterialXMaterialConverter::getTextureMetadata. -/
def getTextureMetadata (tv : TextureView) : Option ImageMetadata := tv.metadata

/-- MaterialXMaterialConverter::getTextureFilePath. -/
def getTextureFilePath (tv : TextureView) : Option String :=
  (getTextureMetadata tv).map fun m => m.refPath

/-- MaterialXMaterialConverter::isTextureSrgbInUsd (TF_VERIFYs that metadata
exists; reads `false` from a missing entry). -/
def isTextureSrgbInUsd (tv : TextureView) : Bool :=
  ((getTextureMetadata tv).map fun m => m.isSrgbInUSD).getD false

/-- MaterialXMaterialConverter::getTextureChannelCount. -/
def getTextureChannelCount (tv : TextureView) : Nat :=
  ((getTextureMetadata tv).map fun m => m.channelCount).getD 0

/-- MaterialXMaterialConverter::getTextureValueType: the texture's native
MaterialX value type from its channel count (USD promotes 1-channel textures
to RGB and 2-channel textures to RGBA under hdStorm compatibility).  Failure
of the metadata lookup or an unexpected channel count yields "" after a
TF_VERIFY. -/
def getTextureValueType (cfg : MtlxConfig) (tv : TextureView) (color : Bool) :
    String :=
  match getTextureMetadata tv with
  | none => ""
  | some metadata =>
      let channelCount := metadata.channelCount
      if channelCount = 3 || (cfg.hdstormCompat && channelCount = 1) then
        if color then "color3" else "vector3"
      else if channelCount = 4 || (cfg.hdstormCompat && channelCount = 2) then
        if color then "color4" else "vector4"
      else if channelCount = 2 then "vector2"
      else if channelCount = 1 then "float"
      else ""

/-- RGB triple of a cgltf float[3] factor. -/
structure Rgb where
  r : ℚ
  g : ℚ
  b : ℚ
  deriving DecidableEq

/-- RGBA quadruple of a cgltf float[4] factor. -/
structure Rgba where
  r : ℚ
  g : ℚ
  b : ℚ
  a : ℚ
  deriving DecidableEq

/-- cgltf_alpha_mode. -/
inductive AlphaMode where
  | opaqueAlpha
  | maskAlpha
  | blendAlpha
  deriving DecidableEq

/-- Integer value of the cgltf_alpha_mode enum. -/
def AlphaMode.toInt : AlphaMode → Int
  | .opaqueAlpha => 0
  | .maskAlpha => 1
  | .blendAlpha => 2

/-- cgltf_pbr_metallic_roughness. -/
structure PbrMetallicRoughness where
  baseColorFactor : Rgba := ⟨1, 1, 1, 1⟩
  baseColorTexture : TextureView := {}
  metallicFactor : ℚ := 1
  roughnessFactor : ℚ := 1
  metallicRoughnessTexture : TextureView := {}
  deriving DecidableEq

/-- cgltf_clearcoat. -/
structure GClearcoat where
  clearcoatTexture : TextureView := {}
  clearcoatFactor : ℚ := 0
  clearcoatRoughnessTexture : TextureView := {}
  clearcoatRoughnessFactor : ℚ := 0
  clearcoatNormalTexture : TextureView := {}
  deriving DecidableEq

/-- cgltf_transmission. -/
structure GTransmission where
  transmissionTexture : TextureView := {}
  transmissionFactor : ℚ := 0
  deriving DecidableEq

/-- cgltf_volume. -/
structure GVolume where
  thicknessTexture : TextureView := {}
  thicknessFactor : ℚ := 0
  attenuationColor : Rgb := ⟨1, 1, 1⟩
  attenuationDistance : ℚ := 0
  deriving DecidableEq

/-- cgltf_iridescence. -/
structure GIridescence where
  iridescenceFactor : ℚ := 0
  iridescenceTexture : TextureView := {}
  iridescenceIor : ℚ := 13/10
  iridescenceThicknessMin : ℚ := 100
  iridescenceThicknessMax : ℚ := 400
  iridescenceThicknessTexture : TextureView := {}
  deriving DecidableEq

/-- cgltf_specular. -/
structure GSpecular where
  specularTexture : TextureView := {}
  specularColorTexture : TextureView := {}
  specularColorFactor : Rgb := ⟨1, 1, 1⟩
  specularFactor : ℚ := 1
  deriving DecidableEq

/-- cgltf_sheen. -/
structure GSheen where
  sheenColorTexture : TextureView := {}
  sheenColorFactor : Rgb := ⟨0, 0, 0⟩
  sheenRoughnessTexture : TextureView := {}
  sheenRoughnessFactor : ℚ := 0
  deriving DecidableEq

/-- cgltf_emissive_strength. -/
structure GEmissiveStrength where
  emissiveStrength : ℚ := 1
  deriving DecidableEq

/-- cgltf_material, restricted to the fields `setGltfPbrInputs` reads, plus
the `unlit` flag. -/
structure GltfMaterial where
  hasPbrMetallicRoughness : Bool := false
  pbrMetallicRoughness : PbrMetallicRoughness := {}
  normalTexture : TextureView := {}
  occlusionTexture : TextureView := {}
  emissiveTexture : TextureView := {}
  emissiveFactor : Rgb := ⟨0, 0, 0⟩
  alphaMode : AlphaMode := .opaqueAlpha
  alphaCutoff : ℚ := 1/2
  unlit : Bool := false
  hasEmissiveStrength : Bool := false
  emissiveStrength : GEmissiveStrength := {}
  hasClearcoat : Bool := false
  clearcoat : GClearcoat := {}
  hasTransmission : Bool := false
  transmission : GTransmission := {}
  hasVolume : Bool := false
  volume : GVolume := {}
  hasIor : Bool := false
  ior : ℚ := 3/2
  hasIridescence : Bool := false
  iridescence : GIridescence := {}
  hasSpecular : Bool := false
  specular : GSpecular := {}
  hasSheen : Bool := false
  sheen : GSheen := {}
  deriving DecidableEq

/-! ### detail:: helper-node builders (materialx.cpp lines 98–399) -/

/-- detail::getMtlxFilterType (switch over the GL filter enum; 0 and invalid
values yield an empty string, the invalid case after a TF_RUNTIME_ERROR). -/
def getMtlxFilterType (filter : Int) : String :=
  if filter = 9728 ∨ filter = 9984 ∨ filter = 9986 then "closest"
  else if filter = 9729 ∨ filter = 9985 ∨ filter = 9987 then "linear"
  else ""

/-- detail::getMtlxAddressMode.  Note the C++ `default:` case posts a
TF_RUNTIME_ERROR and then falls through to the REPEAT case, so every value
other than CLAMP_TO_EDGE and MIRRORED_REPEAT maps to "periodic". -/
def getMtlxAddressMode (addressMode : Int) : String :=
  if addressMode = 33071 then "clamp"
  else if addressMode = 33648 then "mirror"
  else "periodic"

/-- detail::convertFloat3ValueToSrgb: apply the scalar transfer curve
componentwise (the source only ever calls this on color3/vector3 values). -/
def convertFloat3ValueToSrgb (cfg : MtlxConfig) (v : MxValue) : MxValue :=
  match v with
  | .c3 r g b =>
      .c3 (cfg.linearToSrgbFloat r) (cfg.linearToSrgbFloat g) (cfg.linearToSrgbFloat b)
  | .v3 x y z =>
      .v3 (cfg.linearToSrgbFloat x) (cfg.linearToSrgbFloat y) (cfg.linearToSrgbFloat z)
  | other => other

/-- detail::getTextureTypeAdjustedDefaultValueString: map a logical default
value into the texture's native channel layout (float→N components with
alpha 1, color3→color4 with alpha 1, vector3→first component for
vector2/float, ...).  `none` models the TF_CODING_ERROR fall-through that
returns an empty string. -/
def getTextureTypeAdjustedDefaultValue (defaultValue : MxValue)
    (textureType : String) : Option MxValue :=
  if (defaultValue matches .f _) && textureType = "float" ∨
     (defaultValue matches .c3 _ _ _) && textureType = "color3" ∨
     (defaultValue matches .v3 _ _ _) && textureType = "vector3" then
    some defaultValue
  else
    match defaultValue with
    | .c3 r g b =>
        if textureType = "color4" then some (.c4 r g b 1)
        else if textureType = "vector2" then some (.v2 r r)
        else if textureType = "float" then some (.f r)
        else none
    | .v3 x y z =>
        if textureType = "vector4" then some (.v4 x y z 1)
        else if textureType = "vector2" then some (.v2 x x)
        else if textureType = "float" then some (.f x)
        else none
    | .f x =>
        if textureType = "vector2" then some (.v2 x x)
        else if textureType = "color3" then some (.c3 x x x)
        else if textureType = "vector3" then some (.v3 x x x)
        else if textureType = "color4" then some (.c4 x x x x)
        else if textureType = "vector4" then some (.v4 x x x x)
        else none
    | _ => none

/-- detail::makeClampNode. -/
def makeClampNode (g : MtlxNodeGraph) (srcNode : String) :
    MtlxNodeGraph × String :=
  let t := g.nodeType srcNode
  g.addNode "clamp" t [{ name := "in", type := t, nodeName := some srcNode }]

/-- Neutral-factor test of detail::makeMultiplyFactorNodeIfNecessary:
float 1, vector3 (1,1,1) or color3 (1,1,1). -/
def factorIsNeutral (factor : MxValue) : Bool :=
  factor = .f 1 || factor = .v3 1 1 1 || factor = .c3 1 1 1

/-- detail::makeMultiplyFactorNodeIfNecessary: skip the multiply node when the
factor is the neutral element, otherwise emit a multiply node whose `in1` is
connected to the source node and whose `in2` holds the factor literal. -/
def makeMultiplyFactorNodeIfNecessary (g : MtlxNodeGraph) (srcNode : String)
    (factor : MxValue) : MtlxNodeGraph × String :=
  if factorIsNeutral factor then
    (g, srcNode)
  else
    g.addNode "multiply" factor.typeString
      [{ name := "in1", type := g.nodeType srcNode, nodeName := some srcNode },
       { name := "in2", type := factor.typeString, value := some factor }]

/-- detail::makeSrgbToLinearConversionNodes: the explicit sRGB→linear piecewise
transfer-curve subgraph (divide / power branches selected by ifgreatereq,
clamped to [0,1]). -/
def makeSrgbToLinearConversionNodes (g : MtlxNodeGraph) (srcNode : String) :
    MtlxNodeGraph × String :=
  let (g, leftBranch) := g.addNode "divide" "float"
    [{ name := "in1", type := "float", nodeName := some srcNode },
     { name := "in2", type := "float", value := some (.f (1292/100)) }]
  let (g, addNodeName) := g.addNode "add" "float"
    [{ name := "in1", type := "float", nodeName := some srcNode },
     { name := "in2", type := "float", value := some (.f (55/1000)) }]
  let (g, divideNodeName) := g.addNode "divide" "float"
    [{ name := "in1", type := "float", nodeName := some addNodeName },
     { name := "in2", type := "float", value := some (.f (1055/1000)) }]
  let (g, rightBranch) := g.addNode "power" "float"
    [{ name := "in1", type := "float", nodeName := some divideNodeName },
     { name := "in2", type := "float", value := some (.f (24/10)) }]
  let (g, ifGrEqNodeName) := g.addNode "ifgreatereq" "float"
    [{ name := "value1", type := "float", value := some (.f (4045/100000)) },
     { name := "value2", type := "float", nodeName := some srcNode },
     { name := "in1", type := "float", nodeName := some leftBranch },
     { name := "in2", type := "float", nodeName := some rightBranch }]
  makeClampNode g ifGrEqNodeName

/-- detail::makeLinearToSrgbConversionNodes: the inverse transfer curve. -/
def makeLinearToSrgbConversionNodes (g : MtlxNodeGraph) (srcNode : String) :
    MtlxNodeGraph × String :=
  let (g, leftBranch) := makeMultiplyFactorNodeIfNecessary g srcNode (.f (1292/100))
  let (g, powerNodeName) := g.addNode "power" "float"
    [{ name := "in1", type := "float", nodeName := some srcNode },
     { name := "in2", type := "float", value := some (.f (10/24)) }]
  let (g, multiplyNodeName) := makeMultiplyFactorNodeIfNecessary g powerNodeName (.f (1055/1000))
  let (g, rightBranch) := g.addNode "subtract" "float"
    [{ name := "in1", type := "float", nodeName := some multiplyNodeName },
     { name := "in2", type := "float", value := some (.f (55/1000)) }]
  let (g, ifGrEqNodeName) := g.addNode "ifgreatereq" "float"
    [{ name := "value1", type := "float", value := some (.f (31308/10000000)) },
     { name := "value2", type := "float", nodeName := some srcNode },
     { name := "in1", type := "float", nodeName := some leftBranch },
     { name := "in2", type := "float", nodeName := some rightBranch }]
  makeClampNode g ifGrEqNodeName

/-- detail::makeExtractChannelNode. -/
def makeExtractChannelNode (g : MtlxNodeGraph) (srcNode : String) (index : Int) :
    MtlxNodeGraph × String :=
  g.addNode "extract" "float"
    [{ name := "in", type := g.nodeType srcNode, nodeName := some srcNode },
     { name := "index", type := "integer", value := some (.int index) }]

/-- detail::makeConversionNode. -/
def makeConversionNode (g : MtlxNodeGraph) (srcNode : String)
    (destType : String) : MtlxNodeGraph × String :=
  g.addNode "convert" destType
    [{ name := "in", type := g.nodeType srcNode, nodeName := some srcNode }]

/-- detail::makeVectorToWorldSpaceNode. -/
def makeVectorToWorldSpaceNode (g : MtlxNodeGraph) (srcNode : String) :
    MtlxNodeGraph × String :=
  let t := g.nodeType srcNode
  g.addNode "transformvector" t
    [{ name := "in", type := t, nodeName := some srcNode },
     { name := "fromspace", type := "string", value := some (.str "object") },
     { name := "tospace", type := "string", value := some (.str "world") }]

/-- detail::makeNormalizeNode. -/
def makeNormalizeNode (g : MtlxNodeGraph) (srcNode : String) :
    MtlxNodeGraph × String :=
  g.addNode "normalize" "vector3"
    [{ name := "in", type := "vector3", nodeName := some srcNode }]

/-! ### MaterialXMaterialConverter methods -/

/-- MaterialXMaterialConverter::connectNodeGraphNodeToShaderInput
(materialx.cpp lines 1359–1379): in flattening mode the shader input is
connected by node name; otherwise a named boundary output `out_<node>` is
added to the node graph and the input refers to it through its
`output`/`nodegraph` attributes.  In both cases the input's literal value
attribute is removed afterwards. -/
def connectNodeGraphNodeToShaderInput (cfg : MtlxConfig) (g : MtlxNodeGraph)
    (inputs : List MtlxInput) (inputName nodeName : String) :
    MtlxNodeGraph × List MtlxInput :=
  if cfg.flattenNodes then
    (g, inputs.map fun i =>
      if i.name = inputName then { i with nodeName := some nodeName, value := none }
      else i)
  else
    let outName := "out_" ++ nodeName
    let g' := g.addOutput outName (g.nodeType nodeName) nodeName
    (g', inputs.map fun i =>
      if i.name = inputName then
        { i with outputString := some outName, nodegraphString := some g.name,
                 value := none }
      else i)

/-- MaterialXMaterialConverter::makeGeompropValueNode (release build, i.e. the
non-MaterialXView-compat branch): a geompropvalue node with the primvar name
and an optional fallback value; the default color set additionally gets a
linear colorspace attribute unless explicit colorspace transforms are used. -/
def makeGeompropValueNode (cfg : MtlxConfig) (g : MtlxNodeGraph)
    (geompropName geompropValueTypeName : String)
    (defaultValue : Option MxValue := none) : MtlxNodeGraph × String :=
  let baseInputs : List MtlxInput :=
    [{ name := "geomprop", type := "string", value := some (.str geompropName) }]
  let inputs := match defaultValue with
    | some dv => baseInputs ++
        [{ name := "default", type := geompropValueTypeName, value := some dv }]
    | none => baseInputs
  let (g, nodeName) := g.addNode "geompropvalue" geompropValueTypeName inputs
  let g :=
    if !cfg.explicitColorSpaceTransforms && geompropName = defaultColorSetName then
      g.setNodeColorspace nodeName MTLX_COLORSPACE_LINEAR
    else g
  (g, nodeName)

/-- cgltf_transform_required (cgltf_util.cpp): true when offset, rotation or
scale differ from the identity by at least the 1e-5 tolerance
(`GfIsClose(a, b, eps)` is `|a - b| < eps`). -/
def transformRequired (t : TextureTransform) : Bool :=
  !(|t.offsetX - 0| < 1/100000) || !(|t.offsetY - 0| < 1/100000) ||
  !(|t.rotation - 0| < 1/100000) || !(|t.scaleX - 1| < 1/100000) ||
  !(|t.scaleY - 1| < 1/100000)

/-- MaterialXMaterialConverter::addTextureTransformNode: a place2d node fed by
the texcoord node, carrying the inverted glTF UV transform (negated offset X,
negated rotation converted to degrees, reciprocal scale with a zero guard,
pivot (0,1)). -/
def addTextureTransformNode (cfg : MtlxConfig) (g : MtlxNodeGraph)
    (texcoordNode : String) (transform : TextureTransform) :
    MtlxNodeGraph × String :=
  let scaleX := if transform.scaleX = 0 then 0 else 1 / transform.scaleX
  let scaleY := if transform.scaleY = 0 then 0 else 1 / transform.scaleY
  g.addNode "place2d" "vector2"
    [{ name := "texcoord", type := "vector2", nodeName := some texcoordNode },
     { name := "offset", type := "vector2",
       value := some (.v2 (-transform.offsetX) transform.offsetY) },
     { name := "rotate", type := "float",
       value := some (.f (cfg.radiansToDegrees (-transform.rotation))) },
     { name := "scale", type := "vector2", value := some (.v2 scaleX scaleY) },
     { name := "pivot", type := "vector2", value := some (.v2 0 1) }]

/-- Filter-type string selection of addTextureNode (materialx.cpp lines
1270–1292): prefer the mag filter when both are set but disagree; an empty
string adds no filtertype input. -/
def textureFilterType (sampler : GSampler) : String :=
  if sampler.minFilter = 0 ∧ sampler.magFilter ≠ 0 then
    getMtlxFilterType sampler.magFilter
  else if sampler.magFilter = 0 ∧ sampler.minFilter ≠ 0 then
    getMtlxFilterType sampler.minFilter
  else if sampler.minFilter ≠ sampler.magFilter then
    getMtlxFilterType sampler.magFilter
  else ""

/-- MaterialXMaterialConverter::addTextureNode (materialx.cpp lines
1213–1301): the image node with UV source (texcoord geomprop, possibly routed
through a place2d transform node), file path, colorspace attributes, the
type-adjusted default value, filter type and per-axis address modes. -/
def addTextureNode (cfg : MtlxConfig) (g : MtlxNodeGraph) (filePath : String)
    (textureType : String) (isSrgb : Bool) (tv : TextureView)
    (defaultValue : Option MxValue) : MtlxNodeGraph × String :=
  let (g, imageNode) := g.addNode "image" textureType []
  let stIndex := if tv.hasTransform && tv.transform.hasTexcoord then
    tv.transform.texcoord else tv.texcoord
  let (g, texcoordNode) := makeGeompropValueNode cfg g (makeStSetName stIndex) "vector2"
  let (g, texcoordNode) :=
    if tv.hasTransform && transformRequired tv.transform then
      addTextureTransformNode cfg g texcoordNode tv.transform
    else (g, texcoordNode)
  let g := g.addNodeInput imageNode
    { name := "texcoord", type := "vector2", nodeName := some texcoordNode }
  let g := g.addNodeInput imageNode
    { name := "file", type := "filename", value := some (.fname filePath),
      colorspace := if !cfg.explicitColorSpaceTransforms then
          some (if isSrgb then MTLX_COLORSPACE_SRGB else MTLX_COLORSPACE_LINEAR)
        else none }
  let g := match defaultValue with
    | some dv =>
        g.addNodeInput imageNode
          { name := "default", type := textureType,
            value := getTextureTypeAdjustedDefaultValue dv textureType,
            colorspace := if !cfg.explicitColorSpaceTransforms then
                some MTLX_COLORSPACE_LINEAR
              else none }
    | none => g
  let g := match tv.sampler with
    | some sampler =>
        if sampler.minFilter ≠ 0 ∨ sampler.magFilter ≠ 0 then
          let filtertype := textureFilterType sampler
          if filtertype ≠ "" then
            g.addNodeInput imageNode
              { name := "filtertype", type := "string", value := some (.str filtertype) }
          else g
        else g
    | none => g
  let g := g.addNodeInput imageNode
    { name := "uaddressmode", type := "string",
      value := some (.str (match tv.sampler with
        | some sampler => getMtlxAddressMode sampler.wrapS
        | none => "periodic")) }
  let g := g.addNodeInput imageNode
    { name := "vaddressmode", type := "string",
      value := some (.str (match tv.sampler with
        | some sampler => getMtlxAddressMode sampler.wrapT
        | none => "periodic")) }
  (g, imageNode)

/-- MaterialXMaterialConverter::addFloatTextureNodes (materialx.cpp lines
1072–1115): image node for a scalar channel, with the channel-extraction node
when the texture is not single-channel (remapping channel 1 of a two-channel
texture to alpha under hdStorm compatibility), and the explicit inverse
colorspace conversion when USD incorrectly linearizes the texture. -/
def addFloatTextureNodes (cfg : MtlxConfig) (g : MtlxNodeGraph)
    (tv : TextureView) (filePath : String) (channelIndex : Int)
    (defaultValue : ℚ) : MtlxNodeGraph × String :=
  let texValueType := getTextureValueType cfg tv false
  let isSrgbInUsd := cfg.hdstormCompat && isTextureSrgbInUsd tv && channelIndex ≠ 3
  let defaultValue := if isSrgbInUsd then cfg.linearToSrgbFloat defaultValue
    else defaultValue
  let (g, valueNode) := addTextureNode cfg g filePath texValueType false tv
    (some (.f defaultValue))
  let (g, valueNode) :=
    if texValueType ≠ "float" then
      let remapChannelToAlpha := cfg.hdstormCompat &&
        getTextureChannelCount tv = 2 && channelIndex = 1
      makeExtractChannelNode g valueNode (if remapChannelToAlpha then 3 else channelIndex)
    else (g, valueNode)
  if isSrgbInUsd then
    makeLinearToSrgbConversionNodes g valueNode
  else
    (g, valueNode)

/-- MaterialXMaterialConverter::addFloat3TextureNodes (materialx.cpp lines
1117–1184): image node for a color3/vector3 channel with RGBA→RGB conversion,
greyscale promotion (extract + convert), and the explicit per-channel
colorspace conversion network when requested. -/
def addFloat3TextureNodes (cfg : MtlxConfig) (g : MtlxNodeGraph)
    (tv : TextureView) (filePath : String) (color : Bool)
    (defaultValue : MxValue) : MtlxNodeGraph × String :=
  let desiredValueType := if color then "color3" else "vector3"
  let texValueType := getTextureValueType cfg tv color
  let isSrgbInUsd := cfg.hdstormCompat && isTextureSrgbInUsd tv
  let convertToSrgb := color && !isSrgbInUsd
  let vec3IncorrectlyLinearized := !color && isSrgbInUsd
  let defaultValue :=
    if cfg.explicitColorSpaceTransforms && vec3IncorrectlyLinearized then
      convertFloat3ValueToSrgb cfg defaultValue
    else defaultValue
  let (g, valueNode) := addTextureNode cfg g filePath texValueType color tv
    (some defaultValue)
  let (g, valueNode) :=
    if texValueType = "color4" ∨ texValueType = "vector4" then
      makeConversionNode g valueNode desiredValueType
    else
      let (g, valueNode) :=
        if texValueType = "vector2" then makeExtractChannelNode g valueNode 0
        else (g, valueNode)
      if texValueType = "float" ∨ texValueType = "vector2" then
        makeConversionNode g valueNode desiredValueType
      else (g, valueNode)
  if cfg.explicitColorSpaceTransforms && (convertToSrgb || vec3IncorrectlyLinearized) then
    let convertChannel (g : MtlxNodeGraph) (index : Int) : MtlxNodeGraph × String :=
      let (g, channelNode) := makeExtractChannelNode g valueNode index
      if vec3IncorrectlyLinearized then makeLinearToSrgbConversionNodes g channelNode
      else makeSrgbToLinearConversionNodes g channelNode
    let (g, channel1Node) := convertChannel g 0
    let (g, channel2Node) := convertChannel g 1
    let (g, channel3Node) := convertChannel g 2
    g.addNode "combine3" desiredValueType
      [{ name := "in1", type := g.nodeType channel1Node, nodeName := some channel1Node },
       { name := "in2", type := g.nodeType channel2Node, nodeName := some channel2Node },
       { name := "in3", type := g.nodeType channel3Node, nodeName := some channel3Node }]
  else
    (g, valueNode)

/-- MaterialXMaterialConverter::setDiffuseTextureInput (materialx.cpp lines
719–749): vertex-color geomprop (fallback white) × factor (multiply elided
when neutral), then × the base color texture when one resolves; the final
node is connected to the shader input.  A null texture-view pointer is
modelled by `none`. -/
def setDiffuseTextureInput (cfg : MtlxConfig) (g : MtlxNodeGraph)
    (inputs : List MtlxInput) (inputName : String)
    (textureView : Option TextureView) (factor : Rgb) :
    MtlxNodeGraph × List MtlxInput :=
  let (g, geompropNode) := makeGeompropValueNode cfg g defaultColorSetName "color3"
    (some (.v3 1 1 1))
  let (g, multiplyNode1) := makeMultiplyFactorNodeIfNecessary g geompropNode
    (.c3 factor.r factor.g factor.b)
  match textureView.bind getTextureFilePath, textureView with
  | some filePath, some tv =>
      let (g, textureNode) := addFloat3TextureNodes cfg g tv filePath true
        (.c3 1 1 1)
      let (g, multiplyNode2) := g.addNode "multiply" "color3"
        [{ name := "in1", type := "color3", nodeName := some multiplyNode1 },
         { name := "in2", type := "color3", nodeName := some textureNode }]
      connectNodeGraphNodeToShaderInput cfg g inputs inputName multiplyNode2
  | _, _ =>
      connectNodeGraphNodeToShaderInput cfg g inputs inputName multiplyNode1

/-- MaterialXMaterialConverter::setAlphaTextureInput (materialx.cpp lines
751–791): vertex-opacity geomprop (fallback 1.0) × factor, then × the alpha
channel of the base color texture when one resolves; a texture without four
channels triggers a TF_WARN and falls back to channel 1 (two-channel) or 0. -/
def setAlphaTextureInput (cfg : MtlxConfig) (g : MtlxNodeGraph)
    (inputs : List MtlxInput) (inputName : String)
    (textureView : Option TextureView) (factor : ℚ) :
    MtlxNodeGraph × List MtlxInput :=
  let (g, geompropNode) := makeGeompropValueNode cfg g defaultOpacitySetName "float"
    (some (.f 1))
  let (g, multiplyNode1) := makeMultiplyFactorNodeIfNecessary g geompropNode (.f factor)
  match textureView.bind getTextureMetadata, textureView with
  | some metadata, some tv =>
      let channelIndex : Int :=
        if metadata.channelCount ≠ 4 then
          (if metadata.channelCount = 2 then 1 else 0)
        else 3
      let (g, valueNode) := addFloatTextureNodes cfg g tv metadata.refPath
        channelIndex 1
      let (g, multiplyNode2) := g.addNode "multiply" "float"
        [{ name := "in1", type := "float", nodeName := some multiplyNode1 },
         { name := "in2", type := "float", nodeName := some valueNode }]
      connectNodeGraphNodeToShaderInput cfg g inputs inputName multiplyNode2
  | _, _ =>
      connectNodeGraphNodeToShaderInput cfg g inputs inputName multiplyNode1

/-- MaterialXMaterialConverter::setNormalTextureInput (materialx.cpp lines
793–949, release-build branches): the hand-rolled normalmap implementation
with variable handedness.  Returns the updated graph/inputs and whether a
texture was found (`false` means the caller removes the shader input). -/
def setNormalTextureInput (cfg : MtlxConfig) (g : MtlxNodeGraph)
    (inputs : List MtlxInput) (inputName : String) (textureView : TextureView) :
    (MtlxNodeGraph × List MtlxInput) × Bool :=
  match getTextureFilePath textureView with
  | none => ((g, inputs), false)
  | some filePath =>
      let (g, textureNode) := addFloat3TextureNodes cfg g textureView filePath false
        (.v3 (1/2) (1/2) 1)
      let (g, multiplyNode1) := g.addNode "multiply" "vector3"
        [{ name := "in1", type := "vector3", nodeName := some textureNode },
         { name := "in2", type := "float", value := some (.f 2) }]
      let (g, subtractNode) := g.addNode "subtract" "vector3"
        [{ name := "in1", type := "vector3", nodeName := some multiplyNode1 },
         { name := "in2", type := "float", value := some (.f 1) }]
      let (g, multiplyNode2) := makeMultiplyFactorNodeIfNecessary g subtractNode
        (.v3 textureView.scale textureView.scale 1)
      let (g, normalizeNode1) := makeNormalizeNode g multiplyNode2
      let (g, outx) := makeExtractChannelNode g normalizeNode1 0
      let (g, outy) := makeExtractChannelNode g normalizeNode1 1
      let (g, outz) := makeExtractChannelNode g normalizeNode1 2
      let (g, normalNode) := g.addNode "normal" "vector3"
        [{ name := "space", type := "string", value := some (.str "world") }]
      let (g, tangentNode) := makeGeompropValueNode cfg g "tangents" "vector3"
      let (g, tangentNode) := makeVectorToWorldSpaceNode g tangentNode
      let (g, tangentNode) := makeNormalizeNode g tangentNode
      let (g, crossproductNode) := g.addNode "crossproduct" "vector3"
        [{ name := "in1", type := "vector3", nodeName := some normalNode },
         { name := "in2", type := "vector3", nodeName := some tangentNode }]
      let (g, bitangentSignNode) := makeGeompropValueNode cfg g "bitangentSigns" "float"
      let (g, bitangentNode) := g.addNode "multiply" "vector3"
        [{ name := "in1", type := "vector3", nodeName := some crossproductNode },
         { name := "in2", type := "float", nodeName := some bitangentSignNode }]
      let (g, multiplyNode3) := g.addNode "multiply" "vector3"
        [{ name := "in1", type := "vector3", nodeName := some tangentNode },
         { name := "in2", type := "float", nodeName := some outx }]
      let (g, multiplyNode4) := g.addNode "multiply" "vector3"
        [{ name := "in1", type := "vector3", nodeName := some bitangentNode },
         { name := "in2", type := "float", nodeName := some outy }]
      let (g, multiplyNode5) := g.addNode "multiply" "vector3"
        [{ name := "in1", type := "vector3", nodeName := some normalNode },
         { name := "in2", type := "float", nodeName := some outz }]
      let (g, addNode1) := g.addNode "add" "vector3"
        [{ name := "in1", type := "vector3", nodeName := some multiplyNode3 },
         { name := "in2", type := "vector3", nodeName := some multiplyNode4 }]
      let (g, addNode2) := g.addNode "add" "vector3"
        [{ name := "in1", type := "vector3", nodeName := some addNode1 },
         { name := "in2", type := "vector3", nodeName := some multiplyNode5 }]
      let (g, normalizeNode2) := makeNormalizeNode g addNode2
      (connectNodeGraphNodeToShaderInput cfg g inputs inputName normalizeNode2, true)

/-- MaterialXMaterialConverter::setOcclusionTextureInput (materialx.cpp lines
951–990): `1.0 + strength * (occlusionTexture - 1.0)`; no texture means the
input is left exactly as it was. -/
def setOcclusionTextureInput (cfg : MtlxConfig) (g : MtlxNodeGraph)
    (inputs : List MtlxInput) (inputName : String) (textureView : TextureView) :
    MtlxNodeGraph × List MtlxInput :=
  match getTextureFilePath textureView with
  | none => (g, inputs)
  | some filePath =>
      let (g, valueNode) := addFloatTextureNodes cfg g textureView filePath 0 1
      let (g, substractNode) := g.addNode "subtract" "float"
        [{ name := "in1", type := "float", nodeName := some valueNode },
         { name := "in2", type := "float", value := some (.f 1) }]
      let (g, multiplyNode) := makeMultiplyFactorNodeIfNecessary g substractNode
        (.f textureView.scale)
      let (g, addNodeName) := g.addNode "add" "float"
        [{ name := "in1", type := "float", value := some (.f 1) },
         { name := "in2", type := "float", nodeName := some multiplyNode }]
      connectNodeGraphNodeToShaderInput cfg g inputs inputName addNodeName

/-- MaterialXMaterialConverter::setIridescenceThicknessInput (materialx.cpp
lines 992–1022): without a thickness texture the input literal is the
maximum thickness; otherwise a mix(min, max, texture.g) node is connected. -/
def setIridescenceThicknessInput (cfg : MtlxConfig) (g : MtlxNodeGraph)
    (inputs : List MtlxInput) (inputName : String) (iridescence : GIridescence) :
    MtlxNodeGraph × List MtlxInput :=
  match getTextureFilePath iridescence.iridescenceThicknessTexture with
  | none =>
      (g, setInputValue inputs inputName (.f iridescence.iridescenceThicknessMax))
  | some filePath =>
      let (g, thicknessTexNode) := addFloatTextureNodes cfg g
        iridescence.iridescenceThicknessTexture filePath 1 1
      let (g, mixNode) := g.addNode "mix" "float"
        [{ name := "bg", type := "float",
           value := some (.f iridescence.iridescenceThicknessMin) },
         { name := "fg", type := "float",
           value := some (.f iridescence.iridescenceThicknessMax) },
         { name := "mix", type := "float", nodeName := some thicknessTexNode }]
      connectNodeGraphNodeToShaderInput cfg g inputs inputName mixNode

/-- MaterialXMaterialConverter::setSrgbTextureInput (materialx.cpp lines
1024–1046): textured channels get texture × factor nodes; untextured ones
keep the factor as the input's literal value. -/
def setSrgbTextureInput (cfg : MtlxConfig) (g : MtlxNodeGraph)
    (inputs : List MtlxInput) (inputName : String) (textureView : TextureView)
    (factor fallback : Rgb) : MtlxNodeGraph × List MtlxInput :=
  let factorValue : MxValue := .c3 factor.r factor.g factor.b
  match getTextureFilePath textureView with
  | some filePath =>
      let (g, valueNode) := addFloat3TextureNodes cfg g textureView filePath true
        (.c3 fallback.r fallback.g fallback.b)
      let (g, multiplyNode) := makeMultiplyFactorNodeIfNecessary g valueNode factorValue
      connectNodeGraphNodeToShaderInput cfg g inputs inputName multiplyNode
  | none =>
      (g, setInputValue inputs inputName factorValue)

/-- MaterialXMaterialConverter::setFloatTextureInput (materialx.cpp lines
1048–1070): the scalar analogue of `setSrgbTextureInput`. -/
def setFloatTextureInput (cfg : MtlxConfig) (g : MtlxNodeGraph)
    (inputs : List MtlxInput) (inputName : String) (textureView : TextureView)
    (channelIndex : Int) (factor fallback : ℚ) : MtlxNodeGraph × List MtlxInput :=
  let factorValue : MxValue := .f factor
  match getTextureFilePath textureView with
  | some filePath =>
      let (g, valueNode) := addFloatTextureNodes cfg g textureView filePath
        channelIndex fallback
      let (g, multiplyNode) := makeMultiplyFactorNodeIfNecessary g valueNode factorValue
      connectNodeGraphNodeToShaderInput cfg g inputs inputName multiplyNode
  | none =>
      (g, setInputValue inputs inputName factorValue)

/-- MaterialXMaterialConverter::setGltfPbrInputs (materialx.cpp lines
502–717, release build): populate the glTF PBR shader node's inputs and the
helper node graph.  The five always-present inputs get explicit default
values (the MaterialX 1.38.4 workaround of the FIXME at line 512); the
emissive/normal/occlusion/alpha-mode inputs follow; the metallic-roughness
block runs only for `has_pbr_metallic_roughness`, otherwise base color and
alpha are still multiplied by the vertex color/opacity primvars; the
extension blocks (emissive strength, clearcoat, transmission, volume, ior,
iridescence, specular, sheen) are gated by their `has_*` flags; finally the
hdStorm translucency workaround (line 707) may force a non-zero transmission
literal.  The float literal 0.00001f is modelled as 1/100000. -/
def setGltfPbrInputs (cfg : MtlxConfig) (material : GltfMaterial)
    (g : MtlxNodeGraph) (shader : List MtlxInput) :
    MtlxNodeGraph × List MtlxInput :=
  let shader := addInput shader "base_color" "color3"
  let shader := addInput shader "alpha" "float"
  let shader := addInput shader "occlusion" "float"
  let shader := addInput shader "metallic" "float"
  let shader := addInput shader "roughness" "float"
  let shader := setInputValue shader "base_color" (.c3 1 1 1)
  let shader := setInputValue shader "alpha" (.f 1)
  let shader := setInputValue shader "occlusion" (.f 1)
  let shader := setInputValue shader "metallic" (.f 1)
  let shader := setInputValue shader "roughness" (.f 1)
  let shader := addInput shader "emissive" "color3"
  let emissiveFactor := material.emissiveFactor
  let (g, shader) := setSrgbTextureInput cfg g shader "emissive"
    material.emissiveTexture emissiveFactor ⟨1, 1, 1⟩
  let shader := addInput shader "normal" "vector3"
  let ((g, shader), normalFound) := setNormalTextureInput cfg g shader "normal"
    material.normalTexture
  let shader := if normalFound then shader else removeInput shader "normal"
  let (g, shader) := setOcclusionTextureInput cfg g shader "occlusion"
    material.occlusionTexture
  let shader := addInput shader "alpha_mode" "integer"
  let shader := setInputValue shader "alpha_mode" (.int material.alphaMode.toInt)
  let shader :=
    if material.alphaMode = .maskAlpha then
      setInputValue (addInput shader "alpha_cutoff" "float") "alpha_cutoff"
        (.f material.alphaCutoff)
    else shader
  let (g, shader) :=
    if material.hasPbrMetallicRoughness then
      let pbr := material.pbrMetallicRoughness
      let (g, shader) :=
        if material.alphaMode ≠ .opaqueAlpha then
          setAlphaTextureInput cfg g shader "alpha" (some pbr.baseColorTexture)
            pbr.baseColorFactor.a
        else (g, shader)
      let (g, shader) := setDiffuseTextureInput cfg g shader "base_color"
        (some pbr.baseColorTexture)
        ⟨pbr.baseColorFactor.r, pbr.baseColorFactor.g, pbr.baseColorFactor.b⟩
      let (g, shader) := setFloatTextureInput cfg g shader "metallic"
        pbr.metallicRoughnessTexture 2 pbr.metallicFactor 1
      setFloatTextureInput cfg g shader "roughness"
        pbr.metallicRoughnessTexture 1 pbr.roughnessFactor 1
    else
      let (g, shader) := setDiffuseTextureInput cfg g shader "base_color" none
        ⟨1, 1, 1⟩
      if material.alphaMode ≠ .opaqueAlpha then
        setAlphaTextureInput cfg g shader "alpha" none 1
      else (g, shader)
  let shader :=
    if material.hasEmissiveStrength then
      setInputValue (addInput shader "emissive_strength" "float")
        "emissive_strength" (.f material.emissiveStrength.emissiveStrength)
    else shader
  let (g, shader) :=
    if material.hasClearcoat then
      let clearcoat := material.clearcoat
      let shader := addInput shader "clearcoat" "float"
      let (g, shader) := setFloatTextureInput cfg g shader "clearcoat"
        clearcoat.clearcoatTexture 0 clearcoat.clearcoatFactor 1
      let shader := addInput shader "clearcoat_roughness" "float"
      let (g, shader) := setFloatTextureInput cfg g shader "clearcoat_roughness"
        clearcoat.clearcoatRoughnessTexture 1 clearcoat.clearcoatRoughnessFactor 1
      let shader := addInput shader "clearcoat_normal" "vector3"
      let ((g, shader), ccNormalFound) := setNormalTextureInput cfg g shader
        "clearcoat_normal" clearcoat.clearcoatNormalTexture
      let shader := if ccNormalFound then shader
        else removeInput shader "clearcoat_normal"
      (g, shader)
    else (g, shader)
  let (g, shader) :=
    if material.hasTransmission then
      let transmission := material.transmission
      let shader := addInput shader "transmission" "float"
      setFloatTextureInput cfg g shader "transmission"
        transmission.transmissionTexture 0 transmission.transmissionFactor 0
    else (g, shader)
  let (g, shader) :=
    if material.hasVolume then
      let volume := material.volume
      let shader := addInput shader "thickness" "float"
      let (g, shader) := setFloatTextureInput cfg g shader "thickness"
        volume.thicknessTexture 1 volume.thicknessFactor 0
      let shader := setInputValue (addInput shader "attenuation_distance" "float")
        "attenuation_distance" (.f volume.attenuationDistance)
      let shader := setInputValue (addInput shader "attenuation_color" "color3")
        "attenuation_color"
        (.c3 volume.attenuationColor.r volume.attenuationColor.g volume.attenuationColor.b)
      (g, shader)
    else (g, shader)
  let shader :=
    if material.hasIor then
      setInputValue (addInput shader "ior" "float") "ior" (.f material.ior)
    else shader
  let (g, shader) :=
    if material.hasIridescence then
      let iridescence := material.iridescence
      let shader := addInput shader "iridescence" "float"
      let (g, shader) := setFloatTextureInput cfg g shader "iridescence"
        iridescence.iridescenceTexture 0 iridescence.iridescenceFactor 1
      let shader := setInputValue (addInput shader "iridescence_ior" "float")
        "iridescence_ior" (.f iridescence.iridescenceIor)
      let shader := addInput shader "iridescence_thickness" "float"
      setIridescenceThicknessInput cfg g shader "iridescence_thickness" iridescence
    else (g, shader)
  let (g, shader) :=
    if material.hasSpecular then
      let specular := material.specular
      let shader := addInput shader "specular" "float"
      let (g, shader) := setFloatTextureInput cfg g shader "specular"
        specular.specularTexture 3 specular.specularFactor 1
      let shader := addInput shader "specular_color" "color3"
      setSrgbTextureInput cfg g shader "specular_color"
        specular.specularColorTexture specular.specularColorFactor ⟨1, 1, 1⟩
    else (g, shader)
  let (g, shader) :=
    if material.hasSheen then
      let sheen := material.sheen
      let shader := addInput shader "sheen_color" "color3"
      let (g, shader) := setSrgbTextureInput cfg g shader "sheen_color"
        sheen.sheenColorTexture sheen.sheenColorFactor ⟨0, 0, 0⟩
      let shader := addInput shader "sheen_roughness" "float"
      setFloatTextureInput cfg g shader "sheen_roughness"
        sheen.sheenRoughnessTexture 3 sheen.sheenRoughnessFactor 0
    else (g, shader)
  let shader :=
    if material.alphaMode ≠ .opaqueAlpha ∧ cfg.hdstormCompat ∧ ¬cfg.flattenNodes then
      let shader :=
        if material.hasTransmission then shader
        else addInput shader "transmission" "float"
      match getInputValue shader "transmission" with
      | none => setInputValue shader "transmission" (.f (1/100000))
      | some (.f x) =>
          if x = 0 then setInputValue shader "transmission" (.f (1/100000))
          else shader
      | some _ => shader
    else shader
  (g, shader)

/-- MaterialXMaterialConverter::createMaterialNodes for the glTF PBR shader,
up to and including the `setGltfPbrInputs` callback: the node graph
`NG_<name>` and the shader node's input list.  The `m_flattenNodes`
post-processing (`flattenSubgraphs` plus surface-node extraction) and the
surfacematerial node are outside this embedding; the claims below evaluate it
with flattening disabled. -/
def createGltfPbrShader (cfg : MtlxConfig) (material : GltfMaterial)
    (materialName : String) : MtlxNodeGraph × List MtlxInput :=
  setGltfPbrInputs cfg material ⟨"NG_" ++ materialName, [], []⟩ []

/-! ## Supporting lemmas -/

/-- Folding a length-preserving step function preserves the list length. -/
theorem foldl_length_preserving {α : Type} (step : List α → Nat → List α)
    (h : ∀ acc i, (step acc i).length = acc.length) :
    ∀ (r : List Nat) (acc : List α), (r.foldl step acc).length = acc.length := by
  intro r
  induction r with
  | nil => intro acc; rfl
  | cons a obs ih =>
      intro acc
      rw [List.foldl_cons, ih (step acc a), h acc a]

/-- Length of a flatMap whose pieces all have the same length. -/
theorem length_flatMap_const {α β : Type} (l : List α) (f : α → List β) (k : Nat)
    (h : ∀ a, (f a).length = k) : (l.flatMap f).length = l.length * k := by
  induction l with
  | nil => simp
  | cons a as ih =>
      simp only [List.flatMap_cons, List.length_append, h, ih, List.length_cons]
      ring

/-- Sum of a replicated integer list. -/
theorem sum_replicate_int (n : Nat) (x : Int) :
    (List.replicate n x).sum = n * x := by
  simp [List.sum_replicate]

/-- Length of the line-strip output: two indices per segment. -/
theorem length_lineStripOutIndices (l : List Int) :
    (lineStripOutIndices l).length = 2 * (l.length - 1) := by
  have h := length_flatMap_const (List.range (l.length - 1))
    (fun i => [l.getD i 0, l.getD (i + 1) 0]) 2 (fun a => rfl)
  unfold lineStripOutIndices
  rw [h, List.length_range, Nat.mul_comm]

/-- Length of the (buggy, but length-preserving) line-loop output. -/
theorem length_lineLoopOutIndices (l : List Int) :
    (lineLoopOutIndices l).length = l.length * 2 := by
  unfold lineLoopOutIndices
  rw [List.length_set, List.length_set,
    foldl_length_preserving _ (by intro acc i; simp) _ _, List.length_replicate]

/-- Length of the triangle-strip output: three indices per triangle. -/
theorem length_triangleStripOutIndices (l : List Int) :
    (triangleStripOutIndices l).length = 3 * (l.length - 2) := by
  have h := length_flatMap_const (List.range (l.length - 2))
    (fun i =>
      if i % 2 = 0 then
        [l.getD i 0, l.getD (i + 1) 0, l.getD (i + 2) 0]
      else
        [l.getD i 0, l.getD (i + 2) 0, l.getD (i + 1) 0]) 3
    (by intro i; by_cases hi : i % 2 = 0 <;> simp [hi])
  unfold triangleStripOutIndices
  rw [h, List.length_range, Nat.mul_comm]

/-- Length of the triangle-fan output: three indices per triangle. -/
theorem length_triangleFanOutIndices (l : List Int) :
    (triangleFanOutIndices l).length = 3 * (l.length - 2) := by
  have h := length_flatMap_const (List.range (l.length - 2))
    (fun i => [l.getD 0 0, l.getD (i + 1) 0, l.getD (i + 2) 0]) 3 (fun a => rfl)
  unfold triangleFanOutIndices
  rw [h, List.length_range, Nat.mul_comm]

/-! ## Claim theorems -/

/-- C1 (code bug, evaluation): for the line-loop index list `[0, 1, 2]` the
topology normalizer does NOT produce the three claimed segments
`[0,1] [1,2] [2,0]` (i.e. `[0,1,1,2,2,0]`): because the wrap-around segment is
written to positions `i+0`/`i+1` instead of `i*2+0`/`i*2+1` (with `i = n-1`),
it clobbers the middle segment and leaves the last two positions at their
zero-initialized values, yielding `[0,1,2,0,0,0]`.  For fewer than two input
indices the function reports an error (as the claim states). -/
theorem lineLoop_wrap_segment_misplaced :
    createGeometryRepresentation .lineLoop [0, 1, 2] =
      some ([0, 1, 2, 0, 0, 0], [2, 2, 2]) ∧
    createGeometryRepresentation .lineLoop [0, 1, 2] ≠
      some ([0, 1, 1, 2, 2, 0], [2, 2, 2]) ∧
    createGeometryRepresentation .lineLoop [5, 7] ≠
      some ([5, 7, 7, 5], [2, 2]) ∧
    createGeometryRepresentation .lineLoop [5] = none := by
  decide

/-- C7: for every supported primitive kind and every index list the topology
normalizer accepts, the sum of the produced per-polygon vertex counts equals
the length of the produced output index list. -/
theorem sum_faceVertexCounts_eq_length_outIndices (t : PrimitiveType)
    (inIndices outIndices faceVertexCounts : List Int)
    (h : createGeometryRepresentation t inIndices =
      some (outIndices, faceVertexCounts)) :
    faceVertexCounts.sum = (outIndices.length : Int) := by
  cases t <;> simp only [createGeometryRepresentation] at h
  case points =>
    simp only [Option.some.injEq, Prod.mk.injEq] at h
    obtain ⟨h1, h2⟩ := h
    subst h1; subst h2
    rw [sum_replicate_int]
    simp
  case lines =>
    by_cases hmod : inIndices.length % 2 = 0
    · rw [if_neg (by simp [hmod])] at h
      simp only [Option.some.injEq, Prod.mk.injEq] at h
      obtain ⟨h1, h2⟩ := h
      subst h1; subst h2
      rw [sum_replicate_int]
      omega
    · rw [if_pos (by simp [hmod])] at h
      exact Option.noConfusion h
  case triangles =>
    by_cases hmod : inIndices.length % 3 = 0
    · rw [if_neg (by simp [hmod])] at h
      simp only [Option.some.injEq, Prod.mk.injEq] at h
      obtain ⟨h1, h2⟩ := h
      subst h1; subst h2
      rw [sum_replicate_int]
      omega
    · rw [if_pos (by simp [hmod])] at h
      exact Option.noConfusion h
  case lineStrip =>
    rcases Nat.lt_or_ge inIndices.length 2 with hlt | hge
    · rw [if_pos hlt] at h; exact Option.noConfusion h
    · rw [if_neg (Nat.not_lt.mpr hge)] at h
      simp only [Option.some.injEq, Prod.mk.injEq] at h
      obtain ⟨h1, h2⟩ := h
      subst h1; subst h2
      rw [sum_replicate_int, length_lineStripOutIndices]
      push_cast
      ring
  case lineLoop =>
    rcases Nat.lt_or_ge inIndices.length 2 with hlt | hge
    · rw [if_pos hlt] at h; exact Option.noConfusion h
    · rw [if_neg (Nat.not_lt.mpr hge)] at h
      simp only [Option.some.injEq, Prod.mk.injEq] at h
      obtain ⟨h1, h2⟩ := h
      subst h1; subst h2
      rw [sum_replicate_int, length_lineLoopOutIndices]
      push_cast
      ring
  case triangleStrip =>
    rcases Nat.lt_or_ge inIndices.length 3 with hlt | hge
    · rw [if_pos hlt] at h; exact Option.noConfusion h
    · rw [if_neg (Nat.not_lt.mpr hge)] at h
      simp only [Option.some.injEq, Prod.mk.injEq] at h
      obtain ⟨h1, h2⟩ := h
      subst h1; subst h2
      rw [sum_replicate_int, length_triangleStripOutIndices]
      push_cast
      ring
  case triangleFan =>
    rcases Nat.lt_or_ge inIndices.length 3 with hlt | hge
    · rw [if_pos hlt] at h; exact Option.noConfusion h
    · rw [if_neg (Nat.not_lt.mpr hge)] at h
      simp only [Option.some.injEq, Prod.mk.injEq] at h
      obtain ⟨h1, h2⟩ := h
      subst h1; subst h2
      rw [sum_replicate_int, length_triangleFanOutIndices]
      push_cast
      ring

/-- C7 witness: the property evaluated on a concrete accepted input (a
five-index triangle strip). -/
theorem sum_faceVertexCounts_eq_length_outIndices_witness :
    ([3, 3, 3] : List Int).sum = (([0, 1, 2, 1, 3, 2, 2, 3, 4] : List Int).length : Int) :=
  sum_faceVertexCounts_eq_length_outIndices .triangleStrip [0, 1, 2, 3, 4]
    [0, 1, 2, 1, 3, 2, 2, 3, 4] [3, 3, 3] (by decide)

/-- C5 (code bug, evaluation): `createFlatNormals` computes each triangle's
flat normal from the pre-normalized edges (for the single right triangle in
the XY plane the value is (0,0,1), as the claim states), but it stores the
normals through the shared *vertex* indices into an array of `positions.size()`
elements.  For two triangles sharing the vertices 0 and 2, face 1's normal
(1,0,0) overwrites face 0's at those vertices, so the corners of face 0 carry
the mixed normals (1,0,0)/(0,0,1)/(1,0,0): the result is neither one normal
per face (4 entries, not 2) nor non-shared between triangles, contradicting
the claimed per-face uniform interpolation. -/
theorem createFlatNormals_shares_normals_through_vertex_indices :
    (createFlatNormals [0, 1, 2] [⟨0,0,0⟩, ⟨1,0,0⟩, ⟨0,1,0⟩] =
      [⟨0,0,1⟩, ⟨0,0,1⟩, ⟨0,0,1⟩]) ∧
    (createFlatNormals [0, 1, 2, 0, 2, 3]
        [⟨0,0,0⟩, ⟨1,0,0⟩, ⟨0,1,0⟩, ⟨0,0,1⟩] =
      [⟨1,0,0⟩, ⟨0,0,1⟩, ⟨1,0,0⟩, ⟨1,0,0⟩]) ∧
    (createFlatNormals [0, 1, 2, 0, 2, 3]
        [⟨0,0,0⟩, ⟨1,0,0⟩, ⟨0,1,0⟩, ⟨0,0,1⟩]).length ≠ 2 ∧
    (createFlatNormals [0, 1, 2, 0, 2, 3]
        [⟨0,0,0⟩, ⟨1,0,0⟩, ⟨0,1,0⟩, ⟨0,0,1⟩]).getD 0 ⟨0,0,0⟩ ≠
      (createFlatNormals [0, 1, 2, 0, 2, 3]
        [⟨0,0,0⟩, ⟨1,0,0⟩, ⟨0,1,0⟩, ⟨0,0,1⟩]).getD 1 ⟨0,0,0⟩ := by
  have h1 : createFlatNormals [0, 1, 2] [⟨0,0,0⟩, ⟨1,0,0⟩, ⟨0,1,0⟩] =
      [⟨0,0,1⟩, ⟨0,0,1⟩, ⟨0,0,1⟩] := by
    norm_num [createFlatNormals, flatNormalsStep, Vec3.normalize, Vec3.sub,
      Vec3.dot, Vec3.cross, Vec3.smul, ratSqrt, natSqrtLinear, gfMinVectorLength,
      List.range_succ]
    decide
  have h2 : createFlatNormals [0, 1, 2, 0, 2, 3]
      [⟨0,0,0⟩, ⟨1,0,0⟩, ⟨0,1,0⟩, ⟨0,0,1⟩] =
      [⟨1,0,0⟩, ⟨0,0,1⟩, ⟨1,0,0⟩, ⟨1,0,0⟩] := by
    norm_num [createFlatNormals, flatNormalsStep, Vec3.normalize, Vec3.sub,
      Vec3.dot, Vec3.cross, Vec3.smul, ratSqrt, natSqrtLinear, gfMinVectorLength,
      List.range_succ]
    decide
  refine ⟨h1, h2, ?_, ?_⟩ <;> rw [h2] <;> decide

/-- C6 counterexample: a triangle-topology primitive without authored normals
whose material has a VALID normal texture (texture, image and metadata all
present, UV set index 0), but whose primitive carries no readable texcoord
set: flat normals are generated, tangents are NOT (the converter posts
"invalid UV index for normalmap" and skips tangent generation), contradicting
the claim that a valid normal-map texture suffices. -/
theorem valid_normal_texture_without_uv_set_generates_no_tangents :
    normalTangentGeneration
      { primType := .triangles, normalsReadable := false,
        tangentsReadable := false, normalTextureValid := true,
        normalTexcoord := 0, texCoordSetCount := 0, emitMtlx := true } =
      (true, false) := by decide

/-- C6 amended: with triangle topology, no readable authored normals,
MaterialX output enabled, a valid normal texture AND its UV set present among
the primitive's texcoord sets, both flat normals and tangents are generated;
on a point-topology primitive neither normals nor tangents are ever
generated. -/
theorem normalTangentGeneration_fallback_ordering :
    (∀ inp : NormalTangentInputs,
        hasTriangleTopology inp.primType = true →
        inp.normalsReadable = false →
        inp.emitMtlx = true →
        inp.normalTextureValid = true →
        inp.normalTexcoord < inp.texCoordSetCount →
        normalTangentGeneration inp = (true, true)) ∧
    (∀ inp : NormalTangentInputs, inp.primType = .points →
        normalTangentGeneration inp = (false, false)) := by
  constructor
  · intro inp h1 h2 h3 h4 h5
    simp [normalTangentGeneration, h1, h2, h3, h4, h5]
  · intro inp h
    cases hT : inp.tangentsReadable <;>
      cases hN : inp.normalsReadable <;>
        simp [normalTangentGeneration, hasTriangleTopology, h, hT, hN]

/-- C6 witness: the amended claim applied to a concrete triangle primitive
(one texcoord set) and a concrete point primitive. -/
theorem normalTangentGeneration_fallback_ordering_witness :
    normalTangentGeneration
      { primType := .triangles, normalsReadable := false,
        tangentsReadable := false, normalTextureValid := true,
        normalTexcoord := 0, texCoordSetCount := 1, emitMtlx := true } =
      (true, true) ∧
    normalTangentGeneration
      { primType := .points, normalsReadable := false,
        tangentsReadable := false, normalTextureValid := true,
        normalTexcoord := 0, texCoordSetCount := 1, emitMtlx := true } =
      (false, false) :=
  ⟨normalTangentGeneration_fallback_ordering.1 _ rfl rfl rfl rfl (by decide),
   normalTangentGeneration_fallback_ordering.2 _ rfl⟩

/-- C10: the texture-coordinate conversion leaves every first (U) component
unchanged, replaces every second (V) component by one minus its source value,
and applying it twice yields the original coordinate set. -/
theorem flipTexCoordSet_flips_v_only_and_is_involutive
    (texCoords : List (ℚ × ℚ)) :
    (flipTexCoordSet texCoords).map Prod.fst = texCoords.map Prod.fst ∧
    (flipTexCoordSet texCoords).map Prod.snd =
      texCoords.map (fun tc => 1 - tc.2) ∧
    flipTexCoordSet (flipTexCoordSet texCoords) = texCoords := by
  have hcomp : flipTexCoordY ∘ flipTexCoordY = id := by
    funext tc
    simp [flipTexCoordY]
  refine ⟨?_, ?_, ?_⟩
  · simp [flipTexCoordSet, flipTexCoordY, List.map_map, Function.comp_def]
  · simp [flipTexCoordSet, flipTexCoordY, List.map_map, Function.comp_def]
  · rw [flipTexCoordSet, flipTexCoordSet, List.map_map, hcomp, List.map_id]

/-- Unfolding lemma: a walk over a cons visit list. -/
theorem runVisits_cons (lowerable : Nat → Bool) (m : PathMap) (e p : Nat)
    (rest : List (Nat × Nat)) :
    runVisits lowerable m ((e, p) :: rest) =
      ((runVisits lowerable (createOrOverEntity lowerable m e p).1 rest).1,
       (createOrOverEntity lowerable m e p).2 ::
         (runVisits lowerable (createOrOverEntity lowerable m e p).1 rest).2) :=
  rfl

/-- Cache-hit case of `createOrOverEntity`. -/
theorem createOrOverEntity_hit (lowerable : Nat → Bool) (m : PathMap)
    (e p t : Nat) (hlk : overridePrimInPathMap m e = some t) :
    (createOrOverEntity lowerable m e p).1 = m ∧
    (createOrOverEntity lowerable m e p).2 = .reference e t := by
  simp [createOrOverEntity, hlk]

/-- Cache-miss case of `createOrOverEntity` for a lowerable entity. -/
theorem createOrOverEntity_miss_lowerable (lowerable : Nat → Bool)
    (m : PathMap) (e p : Nat) (hlk : overridePrimInPathMap m e = none)
    (hl : lowerable e = true) :
    (createOrOverEntity lowerable m e p).1 = (e, p) :: m ∧
    (createOrOverEntity lowerable m e p).2 = .fullLower e p := by
  simp [createOrOverEntity, hlk, hl]

/-- Cache-miss case of `createOrOverEntity` for an invalid entity. -/
theorem createOrOverEntity_miss_invalid (lowerable : Nat → Bool)
    (m : PathMap) (e p : Nat) (hlk : overridePrimInPathMap m e = none)
    (hl : lowerable e = false) :
    (createOrOverEntity lowerable m e p).1 = m ∧
    (createOrOverEntity lowerable m e p).2 = .skipped e := by
  simp [createOrOverEntity, hlk, hl]

/-- Looking up the key just inserted. -/
theorem overridePrimInPathMap_cons_self (m : PathMap) (e p : Nat) :
    overridePrimInPathMap ((e, p) :: m) e = some p := by
  simp [overridePrimInPathMap]

/-- Looking up a different key skips the new entry. -/
theorem overridePrimInPathMap_cons_ne (m : PathMap) (a e p : Nat)
    (h : a ≠ e) :
    overridePrimInPathMap ((e, p) :: m) a = overridePrimInPathMap m a := by
  simp [overridePrimInPathMap, h]

/-- Unfolding lemma: counting full lowerings of one entity at each event. -/
theorem isFullLowerOf_fullLower (entity e p : Nat) :
    isFullLowerOf entity (.fullLower e p) = decide (e = entity) := rfl

/-- Reference events are not full lowerings. -/
theorem isFullLowerOf_reference (entity e t : Nat) :
    isFullLowerOf entity (.reference e t) = false := rfl

/-- Skip events are not full lowerings. -/
theorem isFullLowerOf_skipped (entity e : Nat) :
    isFullLowerOf entity (.skipped e) = false := rfl

/-- In a scene walk starting from cache `m`, an entity already recorded in the
cache is never fully lowered again, and an unrecorded one is fully lowered at
most once. -/
theorem runVisits_countP_fullLower_le (lowerable : Nat → Bool) (entity : Nat) :
    ∀ (visits : List (Nat × Nat)) (m : PathMap),
      ((runVisits lowerable m visits).2.countP (isFullLowerOf entity)) ≤
        (if (overridePrimInPathMap m entity).isSome then 0 else 1) := by
  intro visits
  induction visits with
  | nil =>
      intro m
      simp [runVisits]
  | cons v rest ih =>
      intro m
      obtain ⟨e, p⟩ := v
      rw [runVisits_cons]
      rcases hlk : overridePrimInPathMap m e with - | t
      · by_cases hl : lowerable e
        · obtain ⟨hf, hs⟩ := createOrOverEntity_miss_lowerable lowerable m e p hlk hl
          rw [hf, hs, List.countP_cons]
          by_cases he : e = entity
          · subst he
            have hbound := ih ((e, p) :: m)
            rw [overridePrimInPathMap_cons_self] at hbound
            simp only [Option.isSome_some, if_true] at hbound
            rw [hlk, isFullLowerOf_fullLower]
            simp only [decide_eq_true_eq, Option.isSome_none,
              Bool.false_eq_true, if_false, eq_self_iff_true, if_true]
            omega
          · have hbound := ih ((e, p) :: m)
            rw [overridePrimInPathMap_cons_ne m entity e p
              (fun hx => he hx.symm)] at hbound
            have hif : (if isFullLowerOf entity (.fullLower e p) = true
                then 1 else 0) = 0 := by
              simp [isFullLowerOf_fullLower, he]
            rw [hif]
            omega
        · have hlf : lowerable e = false := by
            cases hx : lowerable e
            · rfl
            · exact absurd hx hl
          obtain ⟨hf, hs⟩ := createOrOverEntity_miss_invalid lowerable m e p hlk hlf
          rw [hf, hs, List.countP_cons]
          have hif : (if isFullLowerOf entity (.skipped e) = true
              then 1 else 0) = 0 := by
            simp [isFullLowerOf_skipped]
          rw [hif]
          have hbound := ih m
          omega
      · obtain ⟨hf, hs⟩ := createOrOverEntity_hit lowerable m e p t hlk
        rw [hf, hs, List.countP_cons]
        have hif : (if isFullLowerOf entity (.reference e t) = true
            then 1 else 0) = 0 := by
          simp [isFullLowerOf_reference]
        rw [hif]
        have hbound := ih m
        omega

/-- A reference event emitted during a scene walk targets either a path that
was already in the cache when the walk started, or the path at which the same
walk fully lowered the entity. -/
theorem runVisits_reference_targets_recorded_path (lowerable : Nat → Bool)
    (entity target : Nat) :
    ∀ (visits : List (Nat × Nat)) (m : PathMap),
      LowerEvent.reference entity target ∈ (runVisits lowerable m visits).2 →
      overridePrimInPathMap m entity = some target ∨
        LowerEvent.fullLower entity target ∈ (runVisits lowerable m visits).2 := by
  intro visits
  induction visits with
  | nil =>
      intro m h
      simp [runVisits] at h
  | cons v rest ih =>
      intro m h
      obtain ⟨e, p⟩ := v
      rw [runVisits_cons] at h ⊢
      rcases hlk : overridePrimInPathMap m e with - | t
      · by_cases hl : lowerable e
        · obtain ⟨hf, hs⟩ := createOrOverEntity_miss_lowerable lowerable m e p hlk hl
          rw [hf, hs] at h ⊢
          rcases List.mem_cons.mp h with hhd | htl
          · exact absurd hhd (by simp)
          · rcases ih ((e, p) :: m) htl with hc | hfull
            · by_cases he : entity = e
              · subst he
                rw [overridePrimInPathMap_cons_self] at hc
                obtain rfl : p = target := by injection hc
                exact Or.inr (List.mem_cons_self _ _)
              · rw [overridePrimInPathMap_cons_ne m entity e p he] at hc
                exact Or.inl hc
            · exact Or.inr (List.mem_cons_of_mem _ hfull)
        · have hlf : lowerable e = false := by
            cases hx : lowerable e
            · rfl
            · exact absurd hx hl
          obtain ⟨hf, hs⟩ := createOrOverEntity_miss_invalid lowerable m e p hlk hlf
          rw [hf, hs] at h ⊢
          rcases List.mem_cons.mp h with hhd | htl
          · exact absurd hhd (by simp)
          · rcases ih m htl with hc | hfull
            · exact Or.inl hc
            · exact Or.inr (List.mem_cons_of_mem _ hfull)
      · obtain ⟨hf, hs⟩ := createOrOverEntity_hit lowerable m e p t hlk
        rw [hf, hs] at h ⊢
        rcases List.mem_cons.mp h with hhd | htl
        · obtain ⟨rfl, rfl⟩ : entity = e ∧ target = t := by
            injection hhd with h1 h2
            exact ⟨h1, h2⟩
          exact Or.inl hlk
        · rcases ih m htl with hc | hfull
          · exact Or.inl hc
          · exact Or.inr (List.mem_cons_of_mem _ hfull)

/-- C2: in every conversion run (scene walk from an empty path cache), each
source entity is fully lowered at most once — every later visit emits only a
lightweight reference — and every reference event targets exactly the path at
which that entity was fully lowered and recorded in the cache. -/
theorem dedup_full_lowering_at_most_once (lowerable : Nat → Bool)
    (visits : List (Nat × Nat)) (entity target : Nat) :
    ((runVisits lowerable [] visits).2.countP (isFullLowerOf entity)) ≤ 1 ∧
    (LowerEvent.reference entity target ∈ (runVisits lowerable [] visits).2 →
      LowerEvent.fullLower entity target ∈ (runVisits lowerable [] visits).2) := by
  constructor
  · have h := runVisits_countP_fullLower_le lowerable entity visits []
    simpa [overridePrimInPathMap] using h
  · intro h
    rcases runVisits_reference_targets_recorded_path lowerable entity target
        visits [] h with hc | hf
    · simp [overridePrimInPathMap] at hc
    · exact hf

/-- C2 witness: two visits of the same entity (id 7) with fresh paths 100 and
200; the claim instance shows the second visit's reference points at the path
100 recorded by the first visit's full lowering. -/
theorem dedup_full_lowering_at_most_once_witness :
    LowerEvent.fullLower 7 100 ∈
      (runVisits (fun _ => true) [] [(7, 100), (7, 200)]).2 :=
  (dedup_full_lowering_at_most_once (fun _ => true) [(7, 100), (7, 200)] 7
    100).2 (by decide)

/-- C9 counterexample: with requested default-variant index 5 and 2 declared
variants, the converter selects index 0 and keeps going — but the diagnostic
it posts is a TF_RUNTIME_ERROR, not a warning. -/
theorem defaultVariant_out_of_range_posts_runtime_error :
    assignDefaultMaterialVariant 5 2 =
      some ⟨0, some DiagKind.runtimeError⟩ ∧
    (some DiagKind.runtimeError : Option DiagKind) ≠ some DiagKind.warning := by
  refine ⟨?_, by decide⟩
  norm_num [assignDefaultMaterialVariant]

/-- C9 amended: whenever variants are declared, an out-of-range default
variant index posts a non-fatal runtime-error diagnostic and falls back to
index 0, the conversion continuing either way; an in-range index selects
exactly the requested variant with no diagnostic. -/
theorem assignDefaultMaterialVariant_clamps_and_continues
    (defaultMaterialVariant : Int) (variantsCount : Nat)
    (hpos : 0 < variantsCount) :
    (defaultMaterialVariant < 0 ∨ (variantsCount : Int) ≤ defaultMaterialVariant →
      assignDefaultMaterialVariant defaultMaterialVariant variantsCount =
        some ⟨0, some DiagKind.runtimeError⟩) ∧
    (0 ≤ defaultMaterialVariant ∧ defaultMaterialVariant < (variantsCount : Int) →
      assignDefaultMaterialVariant defaultMaterialVariant variantsCount =
        some ⟨defaultMaterialVariant.toNat, none⟩) := by
  unfold assignDefaultMaterialVariant
  constructor
  · intro h
    rw [if_neg (by omega), if_pos h]
  · intro h
    rw [if_neg (by omega), if_neg (by omega)]

/-- C9 witness: the amended claim applied at the out-of-range input (5, 2) and
the in-range input (1, 2). -/
theorem assignDefaultMaterialVariant_clamps_and_continues_witness :
    assignDefaultMaterialVariant 5 2 = some ⟨0, some DiagKind.runtimeError⟩ ∧
    assignDefaultMaterialVariant 1 2 = some ⟨1, none⟩ :=
  ⟨(assignDefaultMaterialVariant_clamps_and_continues 5 2 (by norm_num)).1
      (by norm_num),
   (assignDefaultMaterialVariant_clamps_and_continues 1 2 (by norm_num)).2
      (by norm_num)⟩

/-! ### Concrete fixtures for the MaterialX claims -/

/-- guc's default conversion parameters for the MaterialX converter: no node
flattening, implicit colorspaces, no hdStorm compatibility.  The two
real-valued curve functions are never evaluated on untextured paths and are
instantiated with the identity. -/
def mtlxDefaultConfig : MtlxConfig :=
  { flattenNodes := false, explicitColorSpaceTransformsParam := false,
    hdstormCompat := false, linearToSrgbFloat := id, radiansToDegrees := id }

/-- The spec's concrete scenario material: metallic-roughness present with
baseColorFactor (1,1,1,1), all factors at their glTF defaults, no textures,
alpha mode Opaque, no extensions. -/
def opaqueDefaultMaterial : GltfMaterial :=
  { hasPbrMetallicRoughness := true }

/-- The default configuration with hdStorm compatibility enabled. -/
def hdstormCompatConfig : MtlxConfig :=
  { flattenNodes := false, explicitColorSpaceTransformsParam := false,
    hdstormCompat := true, linearToSrgbFloat := id, radiansToDegrees := id }

/-- A blend-mode material with a valid (resolvable, 3-channel) transmission
texture and no other textures. -/
def transmissionTexturedBlendMaterial : GltfMaterial :=
  { hasPbrMetallicRoughness := true,
    alphaMode := .blendAlpha,
    hasTransmission := true,
    transmission :=
      { transmissionTexture := { metadata := some ⟨"tex.png", 3, false⟩ },
        transmissionFactor := 1 } }

/-- C3 counterexample: lowering the concrete scenario material
(baseColorFactor (1,1,1,1), no textures, alpha mode Opaque) leaves an "alpha"
input on the shader node — and likewise metallic/roughness/occlusion inputs —
each carrying its literal default value, contradicting "the input is absent,
not merely set to the default value" and "no alpha input at all". -/
theorem opaque_default_material_keeps_default_valued_inputs :
    hasInput
      (createGltfPbrShader mtlxDefaultConfig opaqueDefaultMaterial "mat").2
      "alpha" = true ∧
    getInputValue
      (createGltfPbrShader mtlxDefaultConfig opaqueDefaultMaterial "mat").2
      "alpha" = some (MxValue.f 1) ∧
    hasInput
      (createGltfPbrShader mtlxDefaultConfig opaqueDefaultMaterial "mat").2
      "metallic" = true ∧
    hasInput
      (createGltfPbrShader mtlxDefaultConfig opaqueDefaultMaterial "mat").2
      "occlusion" = true := by
  decide

/-- C3 amended (concrete-scenario evaluation): the base-color input is wired
through a named node-graph output directly to the vertex-color geompropvalue
node — the only node in the graph, so no multiply node is inserted — and its
literal value is removed; but the untextured channels whose factors equal
their defaults keep literal-valued inputs (alpha = 1.0, and
metallic/roughness/occlusion = 1.0, emissive = (0,0,0)); only the normal
input is removed when no texture is bound.  The full input list is exactly
base_color, alpha, occlusion, metallic, roughness, emissive, alpha_mode. -/
theorem opaque_default_material_lowering :
    ((createGltfPbrShader mtlxDefaultConfig opaqueDefaultMaterial "mat").2.map
        (fun i => i.name) =
      ["base_color", "alpha", "occlusion", "metallic", "roughness",
       "emissive", "alpha_mode"]) ∧
    ((createGltfPbrShader mtlxDefaultConfig opaqueDefaultMaterial "mat").1.nodes.map
        (fun n => (n.name, n.category, n.type)) =
      [("geompropvalue1", "geompropvalue", "color3")]) ∧
    ((createGltfPbrShader mtlxDefaultConfig opaqueDefaultMaterial "mat").1.nodes.map
        (fun n => n.inputs.map (fun i => (i.name, i.value))) =
      [[("geomprop", some (MxValue.str "color0")),
        ("default", some (MxValue.v3 1 1 1))]]) ∧
    ((createGltfPbrShader mtlxDefaultConfig opaqueDefaultMaterial "mat").1.outputs =
      [⟨"out_geompropvalue1", "color3", "geompropvalue1"⟩]) ∧
    ((createGltfPbrShader mtlxDefaultConfig opaqueDefaultMaterial "mat").2.find?
        (fun i => i.name = "base_color") =
      some { name := "base_color", type := "color3", value := none,
             nodeName := none, outputString := some "out_geompropvalue1",
             nodegraphString := some "NG_mat", colorspace := none }) ∧
    ((createGltfPbrShader mtlxDefaultConfig opaqueDefaultMaterial "mat").2.find?
        (fun i => i.name = "alpha") =
      some { name := "alpha", type := "float", value := some (MxValue.f 1),
             nodeName := none, outputString := none, nodegraphString := none,
             colorspace := none }) ∧
    ((createGltfPbrShader mtlxDefaultConfig opaqueDefaultMaterial "mat").2.find?
        (fun i => i.name = "emissive") =
      some { name := "emissive", type := "color3",
             value := some (MxValue.c3 0 0 0), nodeName := none,
             outputString := none, nodegraphString := none,
             colorspace := none }) := by
  refine ⟨by decide, by decide, by decide, by decide, by decide, by decide,
    by decide⟩

/-- C4 (code bug, evaluation): the lowering engine never reads the material's
unlit flag — `setGltfPbrInputs` produces bit-identical output for the unlit
and non-unlit versions of every material — and lowering an unlit material
runs the full PBR path (metallic, roughness, occlusion, alpha-mode inputs all
present), instead of the claimed emission-color/opacity-only bypass. -/
theorem unlit_flag_ignored_by_lowering :
    (∀ u : Bool,
      createGltfPbrShader mtlxDefaultConfig
          { opaqueDefaultMaterial with unlit := u } "mat" =
        createGltfPbrShader mtlxDefaultConfig opaqueDefaultMaterial "mat") ∧
    ((createGltfPbrShader mtlxDefaultConfig
        { opaqueDefaultMaterial with unlit := true } "mat").2.map
        (fun i => i.name) =
      ["base_color", "alpha", "occlusion", "metallic", "roughness",
       "emissive", "alpha_mode"]) := by
  constructor
  · intro u
    cases u
    · rfl
    · decide
  · decide

/-- C8 counterexample: with hdStorm compatibility, a blend-mode material with
a valid transmission texture first gets its "transmission" shader input
connected (the connect step removes the literal), but the later hdStorm
translucency workaround writes a literal value back onto the already
connected input — the produced shader carries an input that is both a literal
and a connection. -/
theorem transmission_input_both_literal_and_connected :
    ((createGltfPbrShader hdstormCompatConfig transmissionTexturedBlendMaterial
        "mat").2.find? (fun i => i.name = "transmission")).map
      (fun i => (i.value.isSome, i.outputString.isSome,
        i.nodegraphString.isSome)) = some (true, true, true) := by
  decide

/-- C8 amended: `connectNodeGraphNodeToShaderInput` itself guarantees the
claim — after connecting, the input's literal value attribute is removed and
the input carries exactly the one new connection (by node name when
flattening, else through a freshly added, explicitly named node-graph
boundary output that points at the connected node); the exception is the
separate hdStorm transmission workaround, which can later set a literal on an
already-connected transmission input. -/
theorem connect_removes_literal_and_sets_single_connection (cfg : MtlxConfig)
    (g : MtlxNodeGraph) (inputs : List MtlxInput) (inp : MtlxInput)
    (nodeName : String) (hmem : inp ∈ inputs)
    (hclean : inp.nodeName = none ∧ inp.outputString = none ∧
      inp.nodegraphString = none) :
    ∃ i' ∈ (connectNodeGraphNodeToShaderInput cfg g inputs inp.name nodeName).2,
      i'.value = none ∧
      (cfg.flattenNodes = true →
        i'.nodeName = some nodeName ∧ i'.outputString = none ∧
        i'.nodegraphString = none) ∧
      (cfg.flattenNodes = false →
        i'.nodeName = none ∧ i'.outputString = some ("out_" ++ nodeName) ∧
        i'.nodegraphString = some g.name ∧
        MtlxOutput.mk ("out_" ++ nodeName) (g.nodeType nodeName) nodeName ∈
          (connectNodeGraphNodeToShaderInput cfg g inputs inp.name
            nodeName).1.outputs) := by
  obtain ⟨hn, ho, hg⟩ := hclean
  cases hfl : cfg.flattenNodes
  · have hfst : (connectNodeGraphNodeToShaderInput cfg g inputs inp.name
        nodeName).1 = g.addOutput ("out_" ++ nodeName) (g.nodeType nodeName)
          nodeName := by
      simp [connectNodeGraphNodeToShaderInput, hfl]
    have hsnd : (connectNodeGraphNodeToShaderInput cfg g inputs inp.name
        nodeName).2 = inputs.map fun i =>
          if i.name = inp.name then
            { i with outputString := some ("out_" ++ nodeName),
                     nodegraphString := some g.name, value := none }
          else i := by
      simp [connectNodeGraphNodeToShaderInput, hfl]
    rw [hfst, hsnd]
    refine ⟨{ inp with outputString := some ("out_" ++ nodeName), nodegraphString := some g.name, value := none }, ?_, rfl, ?_, ?_⟩
    · have hm := List.mem_map_of_mem
        (fun i =>
          if i.name = inp.name then
            { i with outputString := some ("out_" ++ nodeName),
                     nodegraphString := some g.name, value := none }
          else i) hmem
      simpa using hm
    · intro hcontra
      exact absurd hcontra (by simp)
    · rintro -
      exact ⟨hn, rfl, rfl, by simp [MtlxNodeGraph.addOutput]⟩
  · have hsnd : (connectNodeGraphNodeToShaderInput cfg g inputs inp.name
        nodeName).2 = inputs.map fun i =>
          if i.name = inp.name then
            { i with nodeName := some nodeName, value := none }
          else i := by
      simp [connectNodeGraphNodeToShaderInput, hfl]
    rw [hsnd]
    refine ⟨{ inp with nodeName := some nodeName, value := none }, ?_, rfl, ?_, ?_⟩
    · have hm := List.mem_map_of_mem
        (fun i =>
          if i.name = inp.name then
            { i with nodeName := some nodeName, value := none }
          else i) hmem
      simpa using hm
    · rintro -
      exact ⟨rfl, ho, hg⟩
    · intro hcontra
      exact absurd hcontra (by simp)

/-- C8 witness: the amended claim applied to a single literal-valued input
named "x" in the default (non-flattening) configuration. -/
theorem connect_removes_literal_witness :
    ∃ i' ∈ (connectNodeGraphNodeToShaderInput mtlxDefaultConfig
        ⟨"NG", [], []⟩
        [{ name := "x", type := "float", value := some (MxValue.f 0) }]
        "x" "n").2,
      i'.value = none := by
  obtain ⟨i', hmem, hval, -, -⟩ :=
    connect_removes_literal_and_sets_single_connection mtlxDefaultConfig
      ⟨"NG", [], []⟩
      [{ name := "x", type := "float", value := some (MxValue.f 0) }]
      { name := "x", type := "float", value := some (MxValue.f 0) } "n"
      (List.mem_singleton_self _) ⟨rfl, rfl, rfl⟩
  exact ⟨i', hmem, hval⟩

end Guc
